import Mathlib

/-!
Shallow embedding of the exam-content backend (Rust) from this repository:
the relational data model (exams, descriptions, sections, questions, options),
the transactional bulk insert (`database/queries/insert.rs`), the hierarchical
read and regrouping (`database/queries/read.rs`, `utils/parse.rs`), the
edit/delete flow (`routes/edit.rs`, `models.rs`), the error taxonomy
(`errors.rs`, `routes/delete.rs`) and the LLM option parser
(`utils/parse.rs`).

Machine integers (Rust `i32`) are modelled as `Int`; none of the embedded
code performs arithmetic that can overflow (ids are only compared, stored and
copied), so no modular reduction is needed.  Fallible operations return
`Except`.  Database tables are lists of row structures; SQL statements are
modelled by their effect on those lists, with primary-key and foreign-key
constraints taken from the spec (the DDL itself is not part of `src/`).
-/

set_option maxHeartbeats 1000000

namespace Ilmiya

/-! ## Row models (`src/database/schema.rs`) -/

namespace Schema

/-- Rows of the exam table: identity only (`schema.rs`, `ExamModel`). -/
structure ExamModel where
  id : Int
deriving DecidableEq, Repr

/-- Rows of the exam-description/details table (`schema.rs`,
`ExamDescriptionModel`): `description` is nullable. -/
structure ExamDescriptionModel where
  id : Int
  exam_id : Int
  title : String
  description : Option String
  duration : Int
  passing_score : Int
deriving DecidableEq, Repr

/-- Rows of the sections table (`schema.rs`, `SectionsModel`). -/
structure SectionsModel where
  id : Int
  details_id : Int
  title : String
deriving DecidableEq, Repr

/-- Rows of the questions table (`schema.rs`, `QuestionsModel`):
`description` is nullable. -/
structure QuestionsModel where
  id : Int
  section_id : Int
  text : String
  description : Option String
  marks : Int
deriving DecidableEq, Repr

/-- Rows of the options table (`schema.rs`, `OptionsModel`): `is_correct`
is nullable. -/
structure OptionsModel where
  id : Int
  question_id : Int
  text : String
  is_correct : Option Bool
deriving DecidableEq, Repr

end Schema

/-! ## String helpers for the LLM option parser (`src/utils/parse.rs`) -/

namespace Parse

/-- Repeatedly removes the pattern from the front of a character list, the
semantics of Rust `str::trim_start_matches` (which strips every leading
repetition of the pattern); the pattern matches in front when it equals the
corresponding initial segment. -/
def stripPreRep (pat : List Char) (s : List Char) : List Char :=
  if h : pat ≠ [] ∧ pat = s.take pat.length then
    stripPreRep pat (s.drop pat.length)
  else s
termination_by s.length
decreasing_by
  have hlen : pat.length ≤ s.length := by
    have := congrArg List.length h.2
    simp only [List.length_take] at this
    omega
  have hpos : 0 < pat.length := List.length_pos.mpr h.1
  simp only [List.length_drop]
  omega

/-- Repeatedly removes the pattern from the back of a character list, the
semantics of Rust `str::trim_end_matches`. -/
def stripSufRep (pat : List Char) (s : List Char) : List Char :=
  (stripPreRep pat.reverse s.reverse).reverse

/-- Rust `str::trim_start_matches` on `String`. -/
def trimStartMatches (pat s : String) : String :=
  ⟨stripPreRep pat.data s.data⟩

/-- Rust `str::trim_end_matches` on `String`. -/
def trimEndMatches (pat s : String) : String :=
  ⟨stripSufRep pat.data s.data⟩

/-- Wire shape of the LLM reply (`model/response.rs`,
`GuessFillInTheBlankResponse`): a JSON object with a `responses` array of
strings. -/
structure GuessFillInTheBlankResponse where
  responses : List String
deriving DecidableEq, Repr

/-- Code-fence stripping performed by
`parse_similar_fill_in_the_blanks_options` before JSON parsing: trim, and if
the text starts with a fence, strip leading ```json fences, then leading
``` fences, then trailing ``` fences, then trim again (`utils/parse.rs`). -/
def cleanFenceText (json_text : String) : String :=
  let clean_text := json_text.trim
  if clean_text.startsWith "```" then
    (trimEndMatches "```"
      (trimStartMatches "```"
        (trimStartMatches "```json" clean_text))).trim
  else clean_text

/-- Error message produced by the exactly-4 check (`utils/parse.rs`, the
`bail!` branch; quotes around the field name elided). -/
def expectedFourMsg (found : Nat) : String :=
  "Expected exactly 4 options, found " ++ toString found

/-- Embeds `parse_similar_fill_in_the_blanks_options` (`utils/parse.rs`).
The JSON deserializer `serde_json::from_str` is an external collaborator and
is passed in as the function `from_str`; the embedded code strips code
fences, runs the deserializer, and rejects any parse whose `responses` array
does not hold exactly 4 entries. -/
def parse_similar_fill_in_the_blanks_options
    (from_str : String → Except String GuessFillInTheBlankResponse)
    (json_text : String) : Except String GuessFillInTheBlankResponse :=
  let clean_text := cleanFenceText json_text
  match from_str clean_text with
  | .error e => .error e
  | .ok parsed =>
    if parsed.responses.length ≠ 4 then
      .error (expectedFourMsg parsed.responses.length)
    else
      .ok parsed

end Parse

/-! ## Error taxonomy (`src/errors.rs`) and id parsing -/

namespace Errors

/-- The application error enum (`errors.rs`, `AppError`); each variant
payload is modelled by its display string. -/
inductive AppError where
  | ActixError (msg : String)
  | IOError (msg : String)
  | NotFound (msg : String)
  | SystemTimeError (msg : String)
  | DbErr (msg : String)
  | SerdeError (msg : String)
deriving DecidableEq, Repr

/-- The `Display` implementation of `AppError` (`errors.rs`). -/
def AppError.display : AppError → String
  | .ActixError e => "Actix error: " ++ e
  | .IOError e => "I/O error: " ++ e
  | .NotFound msg => "Resource not found: " ++ msg
  | .SystemTimeError e => "System time error: " ++ e
  | .DbErr e => "DbErr error: " ++ e
  | .SerdeError e => "Serialization error: " ++ e

/-- JSON error body sent to the client (`errors.rs`, `error_response`). -/
structure ErrorBody where
  error : String
  message : String
deriving DecidableEq, Repr

/-- The `ResponseError::error_response` mapping (`errors.rs`): HTTP status
code plus JSON body per error variant. -/
def AppError.error_response : AppError → Nat × ErrorBody
  | .ActixError e => (500, ⟨"Internal Server Error", (AppError.ActixError e).display⟩)
  | .IOError e => (500, ⟨"Internal Server Error", (AppError.IOError e).display⟩)
  | .DbErr e => (500, ⟨"Internal Server Error", (AppError.DbErr e).display⟩)
  | .SerdeError e => (500, ⟨"Internal Server Error", (AppError.SerdeError e).display⟩)
  | .NotFound msg => (404, ⟨"Not Found", (AppError.NotFound msg).display⟩)
  | .SystemTimeError e => (400, ⟨"Bad Request", (AppError.SystemTimeError e).display⟩)

/-- Value of an ASCII digit character list read in base 10. -/
def digitsToNat (ds : List Char) : Nat :=
  ds.foldl (fun acc c => acc * 10 + (c.toNat - 48)) 0

/-- Rust `str::parse::<i32>()`: an optional sign, then one or more ASCII
digits, nothing else, and the value must fit in a signed 32-bit integer;
`none` models `Err(ParseIntError)`. -/
def parse_i32 (s : String) : Option Int :=
  let p : Int × List Char :=
    match s.data with
    | '+' :: rest => (1, rest)
    | '-' :: rest => (-1, rest)
    | cs => (1, cs)
  if p.2 = [] ∨ ¬ p.2.all Char.isDigit then none
  else
    let v : Int := p.1 * (digitsToNat p.2 : Int)
    if v < -(2 ^ 31) ∨ v > 2 ^ 31 - 1 then none else some v

end Errors

/-! ## Wire types and deletion bookkeeping (`src/models.rs`) -/

namespace Models

/-- Exam metadata in edit requests (`models.rs`, `ExamDescription`). -/
structure ExamDescription where
  title : String
  description : String
  duration : Int
  passing_score : Int
deriving DecidableEq, Repr

/-- A section edit: id plus the new title (`models.rs`, `Section`). -/
structure Section where
  id : Int
  title : String
deriving DecidableEq, Repr

/-- A question edit (`models.rs`, `Question`). -/
structure Question where
  id : Int
  section_id : Int
  text : String
  description : String
  marks : Int
deriving DecidableEq, Repr

/-- An option edit (`models.rs`, `OptionModel`). -/
structure OptionModel where
  id : Int
  question_id : Int
  text : String
  is_correct : Bool
deriving DecidableEq, Repr

/-- Wrapper for an exam id (`models.rs`, `ExamId`). -/
structure ExamId where
  exam_id : Int
deriving DecidableEq, Repr

/-- The deletion payload of an edit request (`models.rs`, `Delete`). -/
structure Delete where
  section_ids : List Int
  question_ids : List Int
  option_ids : List Int
deriving DecidableEq, Repr

/-- True when all three id lists of the deletion payload are empty
(`models.rs`, `Delete::is_all_empty`). -/
def Delete.is_all_empty (d : Delete) : Bool :=
  d.section_ids.isEmpty && d.question_ids.isEmpty && d.option_ids.isEmpty

/-- The edit-exam request body (`models.rs`, `EditExam`). -/
structure EditExam where
  exam_id : ExamId
  exam_description : ExamDescription
  sections : List Section
  questions : List Question
  options : List OptionModel
  delete : Delete
deriving DecidableEq, Repr

/-- Insertion into a `HashSet<i32>`, modelled as a duplicate-free list:
inserting a present element is a no-op. -/
def hsInsert (s : List Int) (x : Int) : List Int :=
  if x ∈ s then s else s ++ [x]

/-- Collecting a `Vec<i32>` into a `HashSet<i32>` (deduplication). -/
def hsOfList (l : List Int) : List Int :=
  l.foldl hsInsert []

/-- Deletion working state (`models.rs`, `DeletionData`): the three id sets
and the snapshot of (section id, question id, option id) tuples. -/
structure DeletionData where
  section_id_to_delete : List Int
  question_id_to_delete : List Int
  option_id_to_delete : List Int
  section_question_option_map : List (Int × Int × Int)
deriving DecidableEq, Repr

/-- Constructor collecting the requested id vectors into hash sets
(`models.rs`, `DeletionData::new`). -/
def DeletionData.new (section_id_to_delete question_id_to_delete option_id_to_delete : List Int)
    (section_question_option_map : List (Int × Int × Int)) : DeletionData :=
  ⟨hsOfList section_id_to_delete, hsOfList question_id_to_delete,
   hsOfList option_id_to_delete, section_question_option_map⟩

/-- Loop body of `filter_deletions` (`models.rs`): when the snapshot
tuple's section id is in the section deletion set, insert the tuple's
question id and option id into the question and option deletion sets. -/
def filterStep (section_set : List Int) (acc : List Int × List Int)
    (t : Int × Int × Int) : List Int × List Int :=
  if t.1 ∈ section_set then (hsInsert acc.1 t.2.1, hsInsert acc.2 t.2.2) else acc

/-- Deletion-set expansion (`models.rs`, `DeletionData::filter_deletions`):
walk the snapshot tuples applying `filterStep` with the (unchanging)
section deletion set. -/
def DeletionData.filter_deletions (dd : DeletionData) : DeletionData :=
  let r := dd.section_question_option_map.foldl
    (filterStep dd.section_id_to_delete)
    (dd.question_id_to_delete, dd.option_id_to_delete)
  { dd with question_id_to_delete := r.1, option_id_to_delete := r.2 }

end Models

/-! ## Edit and delete routes (`src/routes/edit.rs`, `src/routes/delete.rs`) -/

namespace Edit

/-- Modelled from the spec: the sea_orm `entities` module (table schemas and
relations for exam, details, sections, questions and options) is not under
`src/`; the table shapes and the foreign keys exam←details←sections←questions
←options follow §3 and §6 of the spec and coincide with `schema.rs`. -/
structure Db where
  exam : List Schema.ExamModel
  details : List Schema.ExamDescriptionModel
  sections : List Schema.SectionsModel
  questions : List Schema.QuestionsModel
  options : List Schema.OptionsModel
deriving DecidableEq, Repr

/-- One LEFT JOIN step: when the list of matching right-hand rows is empty
the left row survives once with NULL right-hand columns (`ifEmpty`),
otherwise each match contributes a row. -/
def ljoin {α β : Type} (ms : List α) (ifEmpty : β) (f : α → List β) : List β :=
  match ms with
  | [] => [ifEmpty]
  | m :: rest => (m :: rest).flatMap f

/-- The id-snapshot query of the edit flow (`edit.rs`, `fetch_ids_query`):
select sections.id, questions.id, options.id from the exam row, LEFT JOINing
details, sections, questions and options in a chain, filtered by exam id.
Every selected column is nullable in the result. -/
def fetch_ids_query (db : Db) (exam_id : Int) :
    List (Option Int × Option Int × Option Int) :=
  (db.exam.filter (fun e => decide (e.id = exam_id))).flatMap (fun e =>
    ljoin (db.details.filter (fun d => decide (d.exam_id = e.id)))
        (none, none, none) (fun d =>
      ljoin (db.sections.filter (fun s => decide (s.details_id = d.id)))
          (none, none, none) (fun s =>
        ljoin (db.questions.filter (fun q => decide (q.section_id = s.id)))
            (some s.id, none, none) (fun q =>
          ljoin (db.options.filter (fun o => decide (o.question_id = q.id)))
              (some s.id, some q.id, none) (fun o =>
            [(some s.id, some q.id, some o.id)])))))

/-- The snapshot sanitizer (`edit.rs`, `generate_final_response`): map each
tuple componentwise, replacing NULL by 0. -/
def generate_final_response (input : List (Option Int × Option Int × Option Int)) :
    List (Int × Int × Int) :=
  input.map (fun t => (t.1.getD 0, t.2.1.getD 0, t.2.2.getD 0))

/-- SQL write statements issued by the edit flow, recorded for the traces:
the three batched UPDATEs (with their accumulated column values and id
filters) and the three DELETEs (with their id sets). -/
inductive Stmt where
  | updateSections (titles : List String) (idFilters : List Int)
  | updateQuestions (texts : List String) (descriptions : List String)
      (marks : List Int) (idFilters : List Int)
  | updateOptions (texts : List String) (flags : List Bool) (idFilters : List Int)
  | deleteSections (ids : List Int)
  | deleteQuestions (ids : List Int)
  | deleteOptions (ids : List Int)
deriving DecidableEq, Repr

/-- DELETE FROM sections WHERE id IN ids, skipped for an empty id set
(`edit.rs`, `delete_query`, first branch). -/
def execDeleteSections (db : Db) (ids : List Int) : List Stmt × Db :=
  if ids ≠ [] then
    ([Stmt.deleteSections ids],
     { db with sections := db.sections.filter (fun r => decide (r.id ∉ ids)) })
  else ([], db)

/-- DELETE FROM questions WHERE id IN ids, skipped for an empty id set
(`edit.rs`, `delete_query`, second branch). -/
def execDeleteQuestions (db : Db) (ids : List Int) : List Stmt × Db :=
  if ids ≠ [] then
    ([Stmt.deleteQuestions ids],
     { db with questions := db.questions.filter (fun r => decide (r.id ∉ ids)) })
  else ([], db)

/-- DELETE FROM options WHERE id IN ids, skipped for an empty id set
(`edit.rs`, `delete_query`, third branch). -/
def execDeleteOptions (db : Db) (ids : List Int) : List Stmt × Db :=
  if ids ≠ [] then
    ([Stmt.deleteOptions ids],
     { db with options := db.options.filter (fun r => decide (r.id ∉ ids)) })
  else ([], db)

/-- The deletion executor (`edit.rs`, `delete_query`): first expand the
deletion sets with `filter_deletions`, then delete sections, questions and
options in that order, each only when its id set is non-empty. -/
def delete_query (db : Db) (deletion_data : Models.DeletionData) : List Stmt × Db :=
  let dd := deletion_data.filter_deletions
  let r1 := execDeleteSections db dd.section_id_to_delete
  let r2 := execDeleteQuestions r1.2 dd.question_id_to_delete
  let r3 := execDeleteOptions r2.2 dd.option_id_to_delete
  (r1.1 ++ r2.1 ++ r3.1, r3.2)

/-- The edit-flow deletion entry point (`edit.rs`, `delete`): fetch the id
snapshot for the exam, sanitize NULLs to 0, build the `DeletionData` from
the requested id lists, and run the deletion executor. -/
def delete (db : Db) (exam : Models.EditExam) : List Stmt × Db :=
  let result := fetch_ids_query db exam.exam_id.exam_id
  let result_responses := generate_final_response result
  let deletion_data := Models.DeletionData.new
    exam.delete.section_ids exam.delete.question_ids exam.delete.option_ids
    result_responses
  delete_query db deletion_data

/-- The batched section update (`edit.rs`, `update_section`): ONE
`update_many` statement; every input row contributes a `title` column value
and an `id = …` filter to the SAME builder, so the executed statement sets
`title` (later values win) on the rows satisfying ALL accumulated id
filters conjointly. -/
def update_section (db : Db) (input : List Models.Section) : Stmt × Db :=
  let titles := input.map (fun s => s.title)
  let idFilters := input.map (fun s => s.id)
  (Stmt.updateSections titles idFilters,
   { db with sections := db.sections.map (fun r =>
       if idFilters.all (fun i => decide (r.id = i)) then
         { r with title := titles.foldl (fun _ t => t) r.title }
       else r) })

/-- The batched question update (`edit.rs`, `update_question`): one
`update_many` statement accumulating text/description/marks values and id
filters; the filters are ANDed, the column values last-win. -/
def update_question (db : Db) (input : List Models.Question) : Stmt × Db :=
  let texts := input.map (fun q => q.text)
  let descriptions := input.map (fun q => q.description)
  let marks := input.map (fun q => q.marks)
  let idFilters := input.map (fun q => q.id)
  (Stmt.updateQuestions texts descriptions marks idFilters,
   { db with questions := db.questions.map (fun r =>
       if idFilters.all (fun i => decide (r.id = i)) then
         { r with
             text := texts.foldl (fun _ t => t) r.text,
             description := descriptions.foldl (fun _ t => some t) r.description,
             marks := marks.foldl (fun _ t => t) r.marks }
       else r) })

/-- The batched option update (`edit.rs`, `update_option`): one
`update_many` statement accumulating text/is_correct values and id filters;
the filters are ANDed, the column values last-win. -/
def update_option (db : Db) (input : List Models.OptionModel) : Stmt × Db :=
  let texts := input.map (fun o => o.text)
  let flags := input.map (fun o => o.is_correct)
  let idFilters := input.map (fun o => o.id)
  (Stmt.updateOptions texts flags idFilters,
   { db with options := db.options.map (fun r =>
       if idFilters.all (fun i => decide (r.id = i)) then
         { r with
             text := texts.foldl (fun _ t => t) r.text,
             is_correct := flags.foldl (fun _ b => some b) r.is_correct }
       else r) })

/-- The edit-exam handler (`edit.rs`, `edit_exam`): run each batched update
only when its edit list is non-empty, then run the deletion flow only when
the deletion payload is not all-empty; the trace records every SQL write
issued. -/
def edit_exam (db : Db) (req_body : Models.EditExam) : List Stmt × Db :=
  let p1 : List Stmt × Db :=
    if !req_body.sections.isEmpty then
      let r := update_section db req_body.sections
      ([r.1], r.2)
    else ([], db)
  let p2 : List Stmt × Db :=
    if !req_body.questions.isEmpty then
      let r := update_question p1.2 req_body.questions
      ([r.1], r.2)
    else ([], p1.2)
  let p3 : List Stmt × Db :=
    if !req_body.options.isEmpty then
      let r := update_option p2.2 req_body.options
      ([r.1], r.2)
    else ([], p2.2)
  let p4 : List Stmt × Db :=
    if !req_body.delete.is_all_empty then
      delete p3.2 req_body
    else ([], p3.2)
  (p1.1 ++ p2.1 ++ p3.1 ++ p4.1, p4.2)

end Edit

namespace DeleteRoute

/-- DELETE FROM exam WHERE id = exam_id (`routes/delete.rs`, `delete`):
removes the matching exam rows; always reports success, also for zero
affected rows. -/
def delete (db : Edit.Db) (exam_id : Int) : Edit.Db :=
  { db with exam := db.exam.filter (fun r => decide (r.id ≠ exam_id)) }

/-- The delete-exam handler (`routes/delete.rs`, `delete_exam`): parse the
path segment as an i32; on parse failure produce
`AppError::NotFound("Invalid exam ID")`, otherwise delete and succeed. -/
def delete_exam (db : Edit.Db) (exam_id : String) : Except Errors.AppError Edit.Db :=
  match Errors.parse_i32 exam_id with
  | none => .error (.NotFound "Invalid exam ID")
  | some exam_id_int => .ok (delete db exam_id_int)

/-- The HTTP translation of the delete-exam handler: a success is a 200
with no error body, a failure goes through `AppError::error_response`. -/
def delete_exam_http (db : Edit.Db) (exam_id : String) :
    Nat × Option Errors.ErrorBody :=
  match delete_exam db exam_id with
  | .ok _ => (200, none)
  | .error e => (e.error_response.1, some e.error_response.2)

end DeleteRoute

/-! ## Hierarchical read (`src/database/queries/read.rs`, `src/utils/parse.rs`,
`src/model/response.rs`) -/

namespace Read

/-- Errors of the sqlx read path: `notFound` models
`sqlx::Error::RowNotFound` from `fetch_one` wrapped with its context string;
`decodeErr` models a column-decode failure (a NULL decoded into a
non-nullable field) wrapped with its context string. -/
inductive ReadErr where
  | notFound (ctx : String)
  | decodeErr (ctx : String)
deriving DecidableEq, Repr

/-- Database state seen by the sqlx read path (`read.rs` reads the tables
exam, details, sections, questions, options; row shapes from
`schema.rs`). -/
structure ReadDb where
  exam : List Schema.ExamModel
  details : List Schema.ExamDescriptionModel
  sections : List Schema.SectionsModel
  questions : List Schema.QuestionsModel
  options : List Schema.OptionsModel
deriving DecidableEq, Repr

/-- Semantics of sqlx `fetch_one` with an error context: the first row of
the result set, or `RowNotFound` when the result set is empty. -/
def fetch_one {α : Type} (rows : List α) (ctx : String) : Except ReadErr α :=
  match rows with
  | [] => .error (.notFound ctx)
  | r :: _ => .ok r

/-- SELECT id FROM exam WHERE id = exam_id, `fetch_one`
(`read.rs`, `fetch_exam_id`). -/
def fetch_exam_id (db : ReadDb) (exam_id : Int) : Except ReadErr Schema.ExamModel :=
  fetch_one (db.exam.filter (fun e => decide (e.id = exam_id)))
    "Failed to fetch exam id"

/-- SELECT … FROM details WHERE exam_id = exam_id, `fetch_one`
(`read.rs`, `fetch_exam_description`). -/
def fetch_exam_description (db : ReadDb) (exam_id : Int) :
    Except ReadErr Schema.ExamDescriptionModel :=
  fetch_one (db.details.filter (fun d => decide (d.exam_id = exam_id)))
    "Failed to fetch exam description"

/-- A raw result row of the section/question/option join of `read.rs`
(`fetch_sections_and_questions`): the section columns come from INNER
JOINs and are non-nullable, the question and option columns come from LEFT
JOINs and are nullable. -/
structure RawSectionRow where
  section_id : Int
  section_title : String
  section_details_id : Int
  question_id : Option Int
  question_text : Option String
  question_description : Option String
  question_marks : Option Int
  option_id : Option Int
  option_text : Option String
  option_is_correct : Option Bool
deriving DecidableEq, Repr

/-- The decoded row type (`schema.rs`, `SectionRow`): question and option
id/text/marks fields are NOT nullable (plain `i32`/`String`), although the
query producing them uses LEFT JOINs. -/
structure SectionRow where
  section_id : Int
  section_title : String
  section_details_id : Int
  question_id : Int
  question_text : String
  question_description : Option String
  question_marks : Int
  option_id : Int
  option_text : String
  option_is_correct : Option Bool
deriving DecidableEq, Repr

/-- Decoding a raw join row into `SectionRow`: every non-nullable target
field requires a non-NULL column; a NULL in one of them is the sqlx
unexpected-NULL decode error, surfaced with the context of
`fetch_sections_and_questions`. -/
def decodeSectionRow (r : RawSectionRow) : Except ReadErr SectionRow :=
  match r.question_id, r.question_text, r.question_marks,
      r.option_id, r.option_text with
  | some qid, some qtext, some qmarks, some oid, some otext =>
    .ok ⟨r.section_id, r.section_title, r.section_details_id,
         qid, qtext, r.question_description, qmarks,
         oid, otext, r.option_is_correct⟩
  | _, _, _, _, _ =>
    .error (.decodeErr "Failed to fetch sections and questions")

/-- The join of `read.rs` `fetch_sections_and_questions`: FROM exam JOIN
details JOIN sections LEFT JOIN questions LEFT JOIN options, filtered by
exam id; a section with no questions yields one row with NULL question and
option columns, a question with no options yields one row with NULL option
columns. -/
def sectionJoinRaw (db : ReadDb) (exam_id : Int) : List RawSectionRow :=
  (db.exam.filter (fun e => decide (e.id = exam_id))).flatMap (fun e =>
    (db.details.filter (fun d => decide (d.exam_id = e.id))).flatMap (fun d =>
      (db.sections.filter (fun s => decide (s.details_id = d.id))).flatMap (fun s =>
        Edit.ljoin (db.questions.filter (fun q => decide (q.section_id = s.id)))
            ⟨s.id, s.title, s.details_id, none, none, none, none, none, none, none⟩
            (fun q =>
          Edit.ljoin (db.options.filter (fun o => decide (o.question_id = q.id)))
              ⟨s.id, s.title, s.details_id, some q.id, some q.text,
               q.description, some q.marks, none, none, none⟩
              (fun o =>
            [⟨s.id, s.title, s.details_id, some q.id, some q.text,
              q.description, some q.marks, some o.id, some o.text,
              o.is_correct⟩])))))

/-- `read.rs` `fetch_sections_and_questions`: run the join and decode every
row into `SectionRow`; the first NULL hitting a non-nullable field fails
the whole fetch. -/
def fetch_sections_and_questions (db : ReadDb) (exam_id : Int) :
    Except ReadErr (List SectionRow) :=
  (sectionJoinRaw db exam_id).mapM decodeSectionRow

/-- Option entry of the read response (`model/option.rs`,
`OptionResponseModel`). -/
structure OptionResponseModel where
  base : Schema.OptionsModel
deriving DecidableEq, Repr

/-- Question entry of the read response (`model/question.rs`,
`QuestionResponse`). -/
structure QuestionResponse where
  base : Schema.QuestionsModel
  options : List OptionResponseModel
deriving DecidableEq, Repr

/-- Section entry of the read response (`model/section.rs`,
`SectionResponse`). -/
structure SectionResponse where
  base : Schema.SectionsModel
  questions : List QuestionResponse
deriving DecidableEq, Repr

/-- Replaces the first list entry satisfying the predicate, used to model
in-place mutation of the entry found by `iter_mut().find(…)` and of the
hash-map entry. -/
def updateFirst {α : Type} (p : α → Bool) (f : α → α) : List α → List α
  | [] => []
  | x :: xs => if p x then f x :: xs else x :: updateFirst p f xs

/-- Processing of one `SectionRow` by `map_to_section_response`
(`utils/parse.rs`): find-or-create the section entry keyed by section id;
then, if a question with the row's question id already exists in that
section, push an option built from the row onto it, otherwise push a new
question holding one option built from the row.  There is NO null check:
every row contributes exactly one option to its question. -/
def pushRow (m : List (Int × SectionResponse)) (row : SectionRow) :
    List (Int × SectionResponse) :=
  let m :=
    if m.any (fun p => decide (p.1 = row.section_id)) then m
    else m ++ [(row.section_id,
      ⟨⟨row.section_id, row.section_details_id, row.section_title⟩, []⟩)]
  let option_model : Schema.OptionsModel :=
    ⟨row.option_id, row.question_id, row.option_text, row.option_is_correct⟩
  let question_model : Schema.QuestionsModel :=
    ⟨row.question_id, row.section_id, row.question_text,
     row.question_description, row.question_marks⟩
  updateFirst (fun p => decide (p.1 = row.section_id))
    (fun p =>
      let qs :=
        if p.2.questions.any (fun q => decide (q.base.id = row.question_id)) then
          updateFirst (fun q => decide (q.base.id = row.question_id))
            (fun q => { q with options := q.options ++ [⟨option_model⟩] })
            p.2.questions
        else
          p.2.questions ++ [⟨question_model, [⟨option_model⟩]⟩]
      (p.1, { p.2 with questions := qs }))
    m

/-- The regrouping function (`utils/parse.rs`, `map_to_section_response`),
with the `HashMap<i32, SectionResponse>` modelled as an association list
keyed by section id; the Rust function always returns `Ok`, so the `Result`
wrapper is omitted. -/
def map_to_section_response (rows : List SectionRow) :
    List (Int × SectionResponse) :=
  rows.foldl pushRow []

/-- Exam-id part of the read response (`model/exam.rs`,
`ExamIdResponse`). -/
structure ExamIdResponse where
  id : Int
deriving DecidableEq, Repr

/-- Description part of the read response (`model/exam.rs`,
`ExamDescription`): built from `ExamDescriptionModel` with
`description.unwrap_or_default()`. -/
structure ExamDescription where
  id : Int
  exam_id : Int
  title : String
  description : String
  duration : Int
  passing_score : Int
deriving DecidableEq, Repr

/-- The `From<ExamDescriptionModel>` conversion (`model/exam.rs`). -/
def descriptionFrom (m : Schema.ExamDescriptionModel) : ExamDescription :=
  ⟨m.id, m.exam_id, m.title, m.description.getD "", m.duration, m.passing_score⟩

/-- The full nested read response (`model/exam.rs`, `ExamResponse`). -/
structure ExamResponse where
  exam_id : ExamIdResponse
  description : ExamDescription
  sections : List SectionResponse
deriving DecidableEq, Repr

/-- The hierarchical read (`read.rs`, `read_exam_data`): fetch the exam
identity row, fetch the description row, fetch and decode the join rows,
regroup them, and assemble the nested response (the section map values in
iteration order). -/
def read_exam_data (db : ReadDb) (exam_id : Int) : Except ReadErr ExamResponse := do
  let exam_model ← fetch_exam_id db exam_id
  let exam_description ← fetch_exam_description db exam_id
  let sections ← fetch_sections_and_questions db exam_id
  let sections_map := map_to_section_response sections
  return ⟨⟨exam_model.id⟩, descriptionFrom exam_description,
          sections_map.map (fun p => p.2)⟩

end Read

/-! ## Transactional bulk insert (`src/database/queries/insert.rs`,
request types from `src/model/exam.rs`, `section.rs`, `question.rs`,
`option.rs`) -/

namespace Insert

/-- Exam-id part of a create request (`model/exam.rs`,
`ExamIdRequestModel`). -/
structure ExamIdRequestModel where
  base : Schema.ExamModel
deriving DecidableEq, Repr

/-- Description part of a create request (`model/exam.rs`,
`ExamDescriptionRequest`). -/
structure ExamDescriptionRequest where
  base : Schema.ExamDescriptionModel
deriving DecidableEq, Repr

/-- Option part of a create request (`model/option.rs`,
`OptionRequestModel`). -/
structure OptionRequestModel where
  base : Schema.OptionsModel
deriving DecidableEq, Repr

/-- Question part of a create request with its nested options
(`model/question.rs`, `QuestionRequest`). -/
structure QuestionRequest where
  base : Schema.QuestionsModel
  options : List OptionRequestModel
deriving DecidableEq, Repr

/-- Section part of a create request with its nested questions
(`model/section.rs`, `SectionRequest`). -/
structure SectionRequest where
  base : Schema.SectionsModel
  questions : List QuestionRequest
deriving DecidableEq, Repr

/-- A full create-exam request (`model/exam.rs`, `ExamRequest`). -/
structure ExamRequest where
  exam_id : ExamIdRequestModel
  description : ExamDescriptionRequest
  sections : List SectionRequest
deriving DecidableEq, Repr

/-- Database state of the sqlx insert path (`insert.rs` writes the tables
exams, exam_descriptions, sections, questions, options); the id column of
every table is its primary key and the child tables carry foreign keys to
their parents (constraints from §3 of the spec; the DDL is not under
`src/`). -/
structure InsertDb where
  exams : List Int
  exam_descriptions : List Schema.ExamDescriptionModel
  sections : List Schema.SectionsModel
  questions : List Schema.QuestionsModel
  options : List Schema.OptionsModel
deriving DecidableEq, Repr

/-- INSERT INTO exams (id) VALUES (…) RETURNING id (`insert.rs`,
`insert_exam_id`): no ON CONFLICT clause, so a duplicate primary key is an
error; on success the inserted id is returned. -/
def insert_exam_id (req : ExamRequest) (db : InsertDb) : Except String (InsertDb × Int) :=
  if req.exam_id.base.id ∈ db.exams then
    .error "Failed to insert into exam"
  else
    .ok ({ db with exams := db.exams ++ [req.exam_id.base.id] }, req.exam_id.base.id)

/-- INSERT INTO exam_descriptions … RETURNING id (`insert.rs`,
`insert_details`): no ON CONFLICT clause (duplicate primary key errors);
the exam_id column references the exams table. -/
def insert_details (req : ExamRequest) (db : InsertDb) : Except String (InsertDb × Int) :=
  if req.description.base.id ∈ db.exam_descriptions.map (fun d => d.id) then
    .error "Failed to insert into details"
  else if req.exam_id.base.id ∉ db.exams then
    .error "Failed to insert into details"
  else
    .ok ({ db with exam_descriptions := db.exam_descriptions ++
            [{ req.description.base with exam_id := req.exam_id.base.id }] },
         req.description.base.id)

/-- Row-by-row semantics of a bulk INSERT … SELECT * FROM UNNEST(…)
ON CONFLICT (id) DO NOTHING: a row whose key is already in the table is
silently skipped; a row whose foreign key has no referent in `valid` fails
the statement with `err`. -/
def bulkGo {ρ : Type} (key : ρ → Int) (fk : ρ → Int) (valid : List Int)
    (err : String) (table : List ρ) : List ρ → Except String (List ρ)
  | [] => .ok table
  | r :: rest =>
    if key r ∈ table.map key then
      bulkGo key fk valid err table rest
    else if fk r ∈ valid then
      bulkGo key fk valid err (table ++ [r]) rest
    else
      .error err

/-- Bulk insert of sections from parallel arrays (`insert.rs`,
`insert_sections`): UNNEST zips the arrays row-wise; ON CONFLICT (id) DO
NOTHING; the description foreign key must exist. -/
def insert_sections (db : InsertDb) (section_ids detail_ids : List Int)
    (section_titles : List String) : Except String InsertDb :=
  let rows := (section_ids.zip (detail_ids.zip section_titles)).map
    (fun t => Schema.SectionsModel.mk t.1 t.2.1 t.2.2)
  match bulkGo (fun r => r.id) (fun r => r.details_id)
      (db.exam_descriptions.map (fun d => d.id))
      "Failed to insert sections" db.sections rows with
  | .error e => .error e
  | .ok table => .ok { db with sections := table }

/-- Bulk insert of questions from parallel arrays (`insert.rs`,
`insert_questions`): ON CONFLICT (id) DO NOTHING; the section foreign key
must exist. -/
def insert_questions (db : InsertDb) (question_ids section_ids : List Int)
    (texts descs : List String) (marks : List Int) : Except String InsertDb :=
  let rows := (question_ids.zip (section_ids.zip (texts.zip (descs.zip marks)))).map
    (fun t => Schema.QuestionsModel.mk t.1 t.2.1 t.2.2.1 (some t.2.2.2.1) t.2.2.2.2)
  match bulkGo (fun r => r.id) (fun r => r.section_id)
      (db.sections.map (fun s => s.id))
      "Failed to insert questions" db.questions rows with
  | .error e => .error e
  | .ok table => .ok { db with questions := table }

/-- Bulk insert of options from parallel arrays (`insert.rs`,
`insert_options`): ON CONFLICT (id) DO NOTHING; the question foreign key
must exist. -/
def insert_options (db : InsertDb) (option_ids question_ids : List Int)
    (texts : List String) (correct_flags : List Bool) : Except String InsertDb :=
  let rows := (option_ids.zip (question_ids.zip (texts.zip correct_flags))).map
    (fun t => Schema.OptionsModel.mk t.1 t.2.1 t.2.2.1 (some t.2.2.2))
  match bulkGo (fun r => r.id) (fun r => r.question_id)
      (db.questions.map (fun q => q.id))
      "Failed to insert options" db.options rows with
  | .error e => .error e
  | .ok table => .ok { db with options := table }

/-- The five statements issued inside the insert transaction, in program
order. -/
inductive InsertStmt where
  | exams
  | details
  | sections
  | questions
  | options
deriving DecidableEq, Repr

/-- Outcome of `insert_exam`: the trace of statements issued before the
transaction ended, the database visible after commit or rollback, and the
returned value — `Ok(())` on success (the function type is
`Result<()>`). -/
structure InsertOutcome where
  trace : List InsertStmt
  db : InsertDb
  result : Except String Unit
deriving Repr

/-- The transactional full-exam insert (`insert.rs`, `insert_exam`): begin
a transaction; insert the exam row, the details row, the flattened
sections, the flattened questions (missing descriptions default to the
empty string), and the flattened options (missing is_correct defaults to
false), in that order; commit on success; any failure ends the transaction
without commit, so the visible database is unchanged.  The returned value
is unit — the ids produced by the first two inserts are bound and
discarded. -/
def insert_exam (exam : ExamRequest) (db : InsertDb) : InsertOutcome :=
  match insert_exam_id exam db with
  | .error e => ⟨[.exams], db, .error e⟩
  | .ok (t1, _exam_id) =>
  match insert_details exam t1 with
  | .error e => ⟨[.exams, .details], db, .error e⟩
  | .ok (t2, _detail_id) =>
  let section_ids := exam.sections.map (fun s => s.base.id)
  let section_titles := exam.sections.map (fun s => s.base.title)
  let detail_ids := List.replicate section_ids.length exam.description.base.id
  match insert_sections t2 section_ids detail_ids section_titles with
  | .error e => ⟨[.exams, .details, .sections], db, .error e⟩
  | .ok t3 =>
  let question_ids := exam.sections.flatMap (fun s => s.questions.map (fun q => q.base.id))
  let question_section_ids :=
    exam.sections.flatMap (fun s => s.questions.map (fun q => q.base.section_id))
  let question_texts := exam.sections.flatMap (fun s => s.questions.map (fun q => q.base.text))
  let question_descs :=
    exam.sections.flatMap (fun s => s.questions.map (fun q => q.base.description.getD ""))
  let question_marks := exam.sections.flatMap (fun s => s.questions.map (fun q => q.base.marks))
  match insert_questions t3 question_ids question_section_ids question_texts
      question_descs question_marks with
  | .error e => ⟨[.exams, .details, .sections, .questions], db, .error e⟩
  | .ok t4 =>
  let option_ids := exam.sections.flatMap (fun s => s.questions.flatMap
    (fun q => q.options.map (fun o => o.base.id)))
  let option_question_ids := exam.sections.flatMap (fun s => s.questions.flatMap
    (fun q => q.options.map (fun o => o.base.question_id)))
  let option_texts := exam.sections.flatMap (fun s => s.questions.flatMap
    (fun q => q.options.map (fun o => o.base.text)))
  let option_correct_flags := exam.sections.flatMap (fun s => s.questions.flatMap
    (fun q => q.options.map (fun o => o.base.is_correct.getD false)))
  match insert_options t4 option_ids option_question_ids option_texts
      option_correct_flags with
  | .error e => ⟨[.exams, .details, .sections, .questions, .options], db, .error e⟩
  | .ok t5 =>
    ⟨[.exams, .details, .sections, .questions, .options], t5, .ok ()⟩

end Insert

/-! ## Shared lemmas -/

/-- Membership survives a hash-set insertion. -/
theorem hsInsert_mem_of_mem {s : List Int} {x : Int} (y : Int) (h : x ∈ s) :
    x ∈ Models.hsInsert s y := by
  unfold Models.hsInsert
  split
  · exact h
  · exact List.mem_append_left _ h

/-- A hash-set insertion contains the inserted element. -/
theorem hsInsert_mem_self (s : List Int) (x : Int) : x ∈ Models.hsInsert s x := by
  unfold Models.hsInsert
  split
  · assumption
  · simp

/-- Membership in the accumulator survives the `hsInsert` fold. -/
theorem foldl_hsInsert_mem_acc {x : Int} (l : List Int) {acc : List Int}
    (h : x ∈ acc) : x ∈ l.foldl Models.hsInsert acc := by
  induction l generalizing acc with
  | nil => exact h
  | cons a t ih => exact ih (hsInsert_mem_of_mem a h)

/-- Every list element lands in the `hsInsert` fold. -/
theorem foldl_hsInsert_mem_elem {x : Int} {l : List Int} (acc : List Int)
    (h : x ∈ l) : x ∈ l.foldl Models.hsInsert acc := by
  induction l generalizing acc with
  | nil => cases h
  | cons a t ih =>
    rcases List.mem_cons.mp h with rfl | hx
    · exact foldl_hsInsert_mem_acc t (hsInsert_mem_self acc x)
    · exact ih (Models.hsInsert acc a) hx

/-- Collecting a vector into a hash set preserves membership. -/
theorem hsOfList_mem_of_mem {l : List Int} {x : Int} (h : x ∈ l) :
    x ∈ Models.hsOfList l :=
  foldl_hsInsert_mem_elem [] h

/-- Membership in either component of the accumulator survives the
`filterStep` fold. -/
theorem filterStep_foldl_mono {S : List Int} (m : List (Int × Int × Int))
    {acc : List Int × List Int} {x : Int} :
    (x ∈ acc.1 → x ∈ (m.foldl (Models.filterStep S) acc).1) ∧
    (x ∈ acc.2 → x ∈ (m.foldl (Models.filterStep S) acc).2) := by
  induction m generalizing acc with
  | nil => exact ⟨id, id⟩
  | cons t rest ih =>
    constructor
    · intro h
      refine (@ih (Models.filterStep S acc t)).1 ?_
      unfold Models.filterStep
      split
      · exact hsInsert_mem_of_mem _ h
      · exact h
    · intro h
      refine (@ih (Models.filterStep S acc t)).2 ?_
      unfold Models.filterStep
      split
      · exact hsInsert_mem_of_mem _ h
      · exact h

/-- A snapshot tuple whose section id is in the section set contributes its
question id and option id to the folded sets. -/
theorem filterStep_foldl_adds {S : List Int} {m : List (Int × Int × Int)}
    {t : Int × Int × Int} (acc : List Int × List Int)
    (hm : t ∈ m) (hs : t.1 ∈ S) :
    t.2.1 ∈ (m.foldl (Models.filterStep S) acc).1 ∧
    t.2.2 ∈ (m.foldl (Models.filterStep S) acc).2 := by
  induction m generalizing acc with
  | nil => cases hm
  | cons u rest ih =>
    rcases List.mem_cons.mp hm with rfl | hmem
    · have hstep : Models.filterStep S acc t =
          (Models.hsInsert acc.1 t.2.1, Models.hsInsert acc.2 t.2.2) := by
        unfold Models.filterStep
        simp [hs]
      constructor
      · refine (filterStep_foldl_mono rest).1 ?_
        rw [hstep]
        exact hsInsert_mem_self _ _
      · refine (filterStep_foldl_mono rest).2 ?_
        rw [hstep]
        exact hsInsert_mem_self _ _
    · exact ih _ hmem

/-- After `filter_deletions`, a snapshot tuple with a requested section id
has pushed its question and option ids into the deletion sets. -/
theorem filter_deletions_adds {dd : Models.DeletionData} {t : Int × Int × Int}
    (hm : t ∈ dd.section_question_option_map)
    (hs : t.1 ∈ dd.section_id_to_delete) :
    t.2.1 ∈ dd.filter_deletions.question_id_to_delete ∧
    t.2.2 ∈ dd.filter_deletions.option_id_to_delete := by
  unfold Models.DeletionData.filter_deletions
  exact filterStep_foldl_adds _ hm hs

/-- `filter_deletions` never drops a requested question id. -/
theorem filter_deletions_keeps_questions {dd : Models.DeletionData} {x : Int}
    (h : x ∈ dd.question_id_to_delete) :
    x ∈ dd.filter_deletions.question_id_to_delete := by
  unfold Models.DeletionData.filter_deletions
  exact (filterStep_foldl_mono _).1 h

/-- `filter_deletions` never drops a requested option id. -/
theorem filter_deletions_keeps_options {dd : Models.DeletionData} {x : Int}
    (h : x ∈ dd.option_id_to_delete) :
    x ∈ dd.filter_deletions.option_id_to_delete := by
  unfold Models.DeletionData.filter_deletions
  exact (filterStep_foldl_mono _).2 h

/-- `filter_deletions` leaves the section set unchanged. -/
theorem filter_deletions_sections (dd : Models.DeletionData) :
    dd.filter_deletions.section_id_to_delete = dd.section_id_to_delete := rfl

/-! ## Claim C7 -/

/-- C7: an edit request whose three edit lists are empty and whose deletion
payload has all three id lists empty issues no SQL write at all (empty
statement trace: no update statement, no delete, hence no transaction) and
leaves the database unchanged; the handler reports success. -/
theorem edit_exam_empty_request_noop (db : Edit.Db) (eid : Models.ExamId)
    (desc : Models.ExamDescription) :
    Edit.edit_exam db ⟨eid, desc, [], [], [], ⟨[], [], []⟩⟩ = ([], db) := rfl

/-! ## Claim C8 -/

/-- C8: the LLM option parser first strips surrounding code fences, then
runs the JSON deserializer on the cleaned text, and accepts the result if
and only if the deserialized `responses` array has exactly 4 entries (and
then returns it unmodified — no truncation or padding); a parse with any
other count is rejected with the descriptive count-mismatch error. -/
theorem parse_options_accepts_iff_four
    (from_str : String → Except String Parse.GuessFillInTheBlankResponse)
    (json_text : String) (r : Parse.GuessFillInTheBlankResponse) :
    (Parse.parse_similar_fill_in_the_blanks_options from_str json_text = .ok r ↔
      from_str (Parse.cleanFenceText json_text) = .ok r ∧ r.responses.length = 4) ∧
    (∀ p : Parse.GuessFillInTheBlankResponse,
      from_str (Parse.cleanFenceText json_text) = .ok p →
      p.responses.length ≠ 4 →
      Parse.parse_similar_fill_in_the_blanks_options from_str json_text =
        .error (Parse.expectedFourMsg p.responses.length)) := by
  have heval : Parse.parse_similar_fill_in_the_blanks_options from_str json_text =
      (match from_str (Parse.cleanFenceText json_text) with
       | .error e => .error e
       | .ok parsed =>
         if parsed.responses.length ≠ 4 then
           .error (Parse.expectedFourMsg parsed.responses.length)
         else .ok parsed) := rfl
  cases hfs : from_str (Parse.cleanFenceText json_text) with
  | error e =>
    rw [heval, hfs]
    exact ⟨⟨fun h => Except.noConfusion h, fun h => Except.noConfusion h.1⟩,
      fun q hq _ => Except.noConfusion hq⟩
  | ok p =>
    rw [heval, hfs]
    show ((if p.responses.length ≠ 4 then
        Except.error (Parse.expectedFourMsg p.responses.length)
      else Except.ok p) = Except.ok r ↔ _) ∧ _
    by_cases hlen : p.responses.length = 4
    · rw [if_neg (by simp [hlen])]
      refine ⟨⟨fun h => ?_, fun h => ?_⟩, fun q hq hq4 => ?_⟩
      · have hpr : p = r := Except.ok.inj h
        subst hpr
        exact ⟨rfl, hlen⟩
      · have hpr : p = r := Except.ok.inj h.1
        rw [hpr]
      · have hpq : p = q := Except.ok.inj hq
        subst hpq
        exact absurd hlen hq4
    · rw [if_pos (by simp [hlen])]
      refine ⟨⟨fun h => ?_, fun h => ?_⟩, fun q hq hq4 => ?_⟩
      · exact Except.noConfusion h
      · have hpr : p = r := Except.ok.inj h.1
        subst hpr
        exact absurd h.2 hlen
      · have hpq : p = q := Except.ok.inj hq
        subst hpq
        show (if p.responses.length ≠ 4 then
            Except.error (Parse.expectedFourMsg p.responses.length)
          else Except.ok p) = _
        rw [if_pos (by simp [hlen])]

/-- Witness for C8: with a deserializer returning a 2-element array on the
given text, the parser rejects with the count error and does not accept. -/
theorem parse_options_accepts_iff_four_witness :
    Parse.parse_similar_fill_in_the_blanks_options
      (fun _ => .ok ⟨["a", "b"]⟩) "x" = .error (Parse.expectedFourMsg 2) :=
  (parse_options_accepts_iff_four (fun _ => .ok ⟨["a", "b"]⟩) "x" ⟨[]⟩).2
    ⟨["a", "b"]⟩ rfl (by decide)

/-! ## Claim C9 -/

/-- C9 counterexample: the error constructed for a non-numeric exam-id path
segment is `AppError::NotFound`, and the handler layer translates it to
HTTP 404, not to 400 as the claim states. -/
theorem delete_exam_bad_id_is_404_not_400 :
    (DeleteRoute.delete_exam_http ⟨[], [], [], [], []⟩ "abc").1 = 404 ∧
    (404 : Nat) ≠ 400 := by
  exact ⟨rfl, by decide⟩

/-- C9 (amended): a request whose id path segment does not parse as an
integer is classified as `NotFound` and translated to HTTP 404 with the
JSON error body; the full handler mapping is NotFound→404,
SystemTimeError→400, and ActixError/IOError/DbErr/SerdeError→500 (there is
no ValidationError category in the code). -/
theorem delete_exam_unparseable_id_maps_to_404 (db : Edit.Db) (s : String)
    (h : Errors.parse_i32 s = none) :
    DeleteRoute.delete_exam_http db s =
      (404, some ⟨"Not Found", "Resource not found: Invalid exam ID"⟩) ∧
    (∀ m, (Errors.AppError.NotFound m).error_response.1 = 404) ∧
    (∀ m, (Errors.AppError.SystemTimeError m).error_response.1 = 400) ∧
    (∀ m, (Errors.AppError.ActixError m).error_response.1 = 500) ∧
    (∀ m, (Errors.AppError.IOError m).error_response.1 = 500) ∧
    (∀ m, (Errors.AppError.DbErr m).error_response.1 = 500) ∧
    (∀ m, (Errors.AppError.SerdeError m).error_response.1 = 500) := by
  refine ⟨?_, fun m => rfl, fun m => rfl, fun m => rfl, fun m => rfl,
    fun m => rfl, fun m => rfl⟩
  unfold DeleteRoute.delete_exam_http DeleteRoute.delete_exam
  rw [h]
  rfl

/-- Witness for C9 (amended): evaluated at the non-numeric segment
`"abc"`. -/
theorem delete_exam_unparseable_id_maps_to_404_witness :
    DeleteRoute.delete_exam_http ⟨[], [], [], [], []⟩ "abc" =
      (404, some ⟨"Not Found", "Resource not found: Invalid exam ID"⟩) :=
  (delete_exam_unparseable_id_maps_to_404 ⟨[], [], [], [], []⟩ "abc" rfl).1

/-! ## Claim C5 -/

/-- C5: evaluation of the batched updates at a two-row batch.  Each
update-many builder accumulates one `id = …` filter per input row and the
filters are ANDed, so the single UPDATE statement issued for a batch of two
distinct ids matches no row: both section rows keep their old titles (and
likewise for questions and options), contradicting the claim that the one
statement updates every row in the batch with its own new values.  A
one-element batch does update its row. -/
theorem update_batch_single_statement_misses_rows :
    (Edit.update_section ⟨[], [], [⟨1, 5, "a"⟩, ⟨2, 5, "b"⟩], [], []⟩
        [⟨1, "a2"⟩, ⟨2, "b2"⟩]).2.sections = [⟨1, 5, "a"⟩, ⟨2, 5, "b"⟩] ∧
    (Edit.update_section ⟨[], [], [⟨1, 5, "a"⟩], [], []⟩
        [⟨1, "a2"⟩]).2.sections = [⟨1, 5, "a2"⟩] ∧
    (Edit.update_question ⟨[], [], [], [⟨1, 9, "q1", none, 1⟩, ⟨2, 9, "q2", none, 1⟩], []⟩
        [⟨1, 9, "q1x", "d1", 3⟩, ⟨2, 9, "q2x", "d2", 4⟩]).2.questions
      = [⟨1, 9, "q1", none, 1⟩, ⟨2, 9, "q2", none, 1⟩] ∧
    (Edit.update_option ⟨[], [], [], [], [⟨1, 7, "o1", none⟩, ⟨2, 7, "o2", none⟩]⟩
        [⟨1, 7, "o1x", true⟩, ⟨2, 7, "o2x", false⟩]).2.options
      = [⟨1, 7, "o1", none⟩, ⟨2, 7, "o2", none⟩] := by
  decide

/-! ## Claim C4 -/

/-- C4 counterexample: re-inserting an exam row whose caller-supplied
primary key already exists is an error, not an idempotent no-op — the exams
INSERT carries no ON CONFLICT clause. -/
theorem insert_exam_id_duplicate_errors :
    Insert.insert_exam_id ⟨⟨⟨1⟩⟩, ⟨⟨5, 1, "t", none, 10, 50⟩⟩, []⟩
      ⟨[1], [], [], [], []⟩ = .error "Failed to insert into exam" := rfl

/-- C4 (amended): in the bulk-insert path all primary keys are
caller-supplied; the Section, Question and Option bulk inserts are
insert-or-ignore (a row whose primary key already exists is silently
skipped, so re-inserting it is an idempotent no-op that leaves the database
unchanged), but the Exam and Description inserts carry no ON CONFLICT
clause and fail on a duplicate primary key. -/
theorem insert_conflict_semantics (db : Insert.InsertDb)
    (req : Insert.ExamRequest) (sid did qid qsid oid oqid m : Int)
    (title text desc otext : String) (b : Bool) :
    (sid ∈ db.sections.map (fun r => r.id) →
      Insert.insert_sections db [sid] [did] [title] = .ok db) ∧
    (qid ∈ db.questions.map (fun r => r.id) →
      Insert.insert_questions db [qid] [qsid] [text] [desc] [m] = .ok db) ∧
    (oid ∈ db.options.map (fun r => r.id) →
      Insert.insert_options db [oid] [oqid] [otext] [b] = .ok db) ∧
    (req.exam_id.base.id ∈ db.exams →
      Insert.insert_exam_id req db = .error "Failed to insert into exam") ∧
    (req.description.base.id ∈ db.exam_descriptions.map (fun d => d.id) →
      Insert.insert_details req db = .error "Failed to insert into details") := by
  refine ⟨fun h => ?_, fun h => ?_, fun h => ?_, fun h => ?_, fun h => ?_⟩
  · simp [Insert.insert_sections, Insert.bulkGo, h]
  · simp [Insert.insert_questions, Insert.bulkGo, h]
  · simp [Insert.insert_options, Insert.bulkGo, h]
  · simp [Insert.insert_exam_id, h]
  · simp [Insert.insert_details, h]

/-- Witness for C4 (amended), at a database already containing section 10,
question 100, option 1000, exam 1 and description 5. -/
theorem insert_conflict_semantics_witness :
    Insert.insert_sections
      ⟨[1], [⟨5, 1, "t", none, 10, 50⟩], [⟨10, 5, "s"⟩], [⟨100, 10, "q", none, 1⟩],
       [⟨1000, 100, "o", none⟩]⟩ [10] [5] ["s2"]
      = .ok ⟨[1], [⟨5, 1, "t", none, 10, 50⟩], [⟨10, 5, "s"⟩],
        [⟨100, 10, "q", none, 1⟩], [⟨1000, 100, "o", none⟩]⟩ ∧
    Insert.insert_questions
      ⟨[1], [⟨5, 1, "t", none, 10, 50⟩], [⟨10, 5, "s"⟩], [⟨100, 10, "q", none, 1⟩],
       [⟨1000, 100, "o", none⟩]⟩ [100] [10] ["q2"] ["d"] [2]
      = .ok ⟨[1], [⟨5, 1, "t", none, 10, 50⟩], [⟨10, 5, "s"⟩],
        [⟨100, 10, "q", none, 1⟩], [⟨1000, 100, "o", none⟩]⟩ ∧
    Insert.insert_options
      ⟨[1], [⟨5, 1, "t", none, 10, 50⟩], [⟨10, 5, "s"⟩], [⟨100, 10, "q", none, 1⟩],
       [⟨1000, 100, "o", none⟩]⟩ [1000] [100] ["o2"] [true]
      = .ok ⟨[1], [⟨5, 1, "t", none, 10, 50⟩], [⟨10, 5, "s"⟩],
        [⟨100, 10, "q", none, 1⟩], [⟨1000, 100, "o", none⟩]⟩ ∧
    Insert.insert_exam_id ⟨⟨⟨1⟩⟩, ⟨⟨5, 1, "t", none, 10, 50⟩⟩, []⟩
      ⟨[1], [⟨5, 1, "t", none, 10, 50⟩], [⟨10, 5, "s"⟩], [⟨100, 10, "q", none, 1⟩],
       [⟨1000, 100, "o", none⟩]⟩ = .error "Failed to insert into exam" ∧
    Insert.insert_details ⟨⟨⟨1⟩⟩, ⟨⟨5, 1, "t", none, 10, 50⟩⟩, []⟩
      ⟨[1], [⟨5, 1, "t", none, 10, 50⟩], [⟨10, 5, "s"⟩], [⟨100, 10, "q", none, 1⟩],
       [⟨1000, 100, "o", none⟩]⟩ = .error "Failed to insert into details" := by
  have h := insert_conflict_semantics
    ⟨[1], [⟨5, 1, "t", none, 10, 50⟩], [⟨10, 5, "s"⟩], [⟨100, 10, "q", none, 1⟩],
     [⟨1000, 100, "o", none⟩]⟩
    ⟨⟨⟨1⟩⟩, ⟨⟨5, 1, "t", none, 10, 50⟩⟩, []⟩
    10 5 100 10 1000 100 2 "s2" "q2" "d" "o2" true
  exact ⟨h.1 (by decide), h.2.1 (by decide), h.2.2.1 (by decide),
    h.2.2.2.1 (by decide), h.2.2.2.2 (by decide)⟩

/-! ## Claim C2 -/

/-- C2: evaluation at the claim's own scenario (section A with a 2-option
question and a 0-option question, section B with no questions).  The LEFT
JOIN produces NULL question/option columns for the childless rows, but
`SectionRow` declares those columns non-nullable, so a read of this exam
fails with a decode error instead of regrouping; and fed a single decoded
row, the regrouping function unconditionally constructs one option for the
row's question — a question never ends up with an empty option list, so the
claimed null-skip behavior does not exist in the code. -/
theorem map_to_section_response_no_null_skip :
    Read.read_exam_data
      ⟨[⟨1⟩], [⟨5, 1, "t", none, 10, 50⟩],
       [⟨10, 5, "A"⟩, ⟨11, 5, "B"⟩],
       [⟨100, 10, "q1", none, 1⟩, ⟨101, 10, "q2", none, 1⟩],
       [⟨1000, 100, "o1", some true⟩, ⟨1001, 100, "o2", some false⟩]⟩ 1
      = .error (.decodeErr "Failed to fetch sections and questions") ∧
    Read.map_to_section_response [⟨10, "A", 5, 101, "q2", none, 1, 0, "", none⟩]
      = [(10, ⟨⟨10, 5, "A"⟩,
          [⟨⟨101, 10, "q2", none, 1⟩, [⟨⟨0, 101, "", none⟩⟩]⟩]⟩)] := by
  exact ⟨rfl, rfl⟩

/-! ## Lemmas on the edit-flow deletion pipeline -/

/-- A sanitized tuple for every fetched tuple (componentwise `getD 0`). -/
theorem generate_final_response_mem {rows : List (Option Int × Option Int × Option Int)}
    {t : Option Int × Option Int × Option Int} (h : t ∈ rows) :
    (t.1.getD 0, t.2.1.getD 0, t.2.2.getD 0) ∈ Edit.generate_final_response rows :=
  List.mem_map_of_mem _ h

/-- An id in the expanded question set ends up in an issued questions
DELETE. -/
theorem delete_query_emits_question_delete {db : Edit.Db}
    {dd : Models.DeletionData} {x : Int}
    (h : x ∈ dd.filter_deletions.question_id_to_delete) :
    ∃ ids, Edit.Stmt.deleteQuestions ids ∈ (Edit.delete_query db dd).1 ∧ x ∈ ids := by
  refine ⟨dd.filter_deletions.question_id_to_delete, ?_, h⟩
  have hne : dd.filter_deletions.question_id_to_delete ≠ [] := List.ne_nil_of_mem h
  unfold Edit.delete_query
  simp only [Edit.execDeleteQuestions]
  rw [if_pos hne]
  simp

/-- An id in the expanded option set ends up in an issued options
DELETE. -/
theorem delete_query_emits_option_delete {db : Edit.Db}
    {dd : Models.DeletionData} {x : Int}
    (h : x ∈ dd.filter_deletions.option_id_to_delete) :
    ∃ ids, Edit.Stmt.deleteOptions ids ∈ (Edit.delete_query db dd).1 ∧ x ∈ ids := by
  refine ⟨dd.filter_deletions.option_id_to_delete, ?_, h⟩
  have hne : dd.filter_deletions.option_id_to_delete ≠ [] := List.ne_nil_of_mem h
  unfold Edit.delete_query
  simp only [Edit.execDeleteOptions]
  rw [if_pos hne]
  simp

/-! ## Claim C10 -/

/-- C10: the snapshot sanitizer turns the NULLs produced by the left joins
for childless parents into the sentinel id 0; consequently, when a section
requested for deletion has a question with no options (first part) the
sentinel 0 is inserted into the option deletion set and appears in the
issued options DELETE, and when it has no questions at all (second part)
the sentinel 0 enters both the question and the option deletion sets and
appears in the corresponding DELETE statements. -/
theorem sentinel_zero_reaches_delete_statements (db : Edit.Db)
    (req : Models.EditExam) (s q : Int) :
    ((some s, some q, (none : Option Int)) ∈
        Edit.fetch_ids_query db req.exam_id.exam_id →
      s ∈ req.delete.section_ids →
      (0 : Int) ∈ (Models.DeletionData.new req.delete.section_ids
          req.delete.question_ids req.delete.option_ids
          (Edit.generate_final_response
            (Edit.fetch_ids_query db req.exam_id.exam_id))).filter_deletions.option_id_to_delete ∧
      ∃ ids, Edit.Stmt.deleteOptions ids ∈ (Edit.delete db req).1 ∧ (0 : Int) ∈ ids) ∧
    (((some s, (none : Option Int), (none : Option Int)) ∈
        Edit.fetch_ids_query db req.exam_id.exam_id →
      s ∈ req.delete.section_ids →
      (0 : Int) ∈ (Models.DeletionData.new req.delete.section_ids
          req.delete.question_ids req.delete.option_ids
          (Edit.generate_final_response
            (Edit.fetch_ids_query db req.exam_id.exam_id))).filter_deletions.question_id_to_delete ∧
      (∃ ids, Edit.Stmt.deleteQuestions ids ∈ (Edit.delete db req).1 ∧ (0 : Int) ∈ ids) ∧
      (∃ ids, Edit.Stmt.deleteOptions ids ∈ (Edit.delete db req).1 ∧ (0 : Int) ∈ ids))) := by
  constructor
  · intro hrow hs
    have hmap : ((s, q, 0) : Int × Int × Int) ∈
        Edit.generate_final_response (Edit.fetch_ids_query db req.exam_id.exam_id) :=
      generate_final_response_mem hrow
    have hset : s ∈ (Models.DeletionData.new req.delete.section_ids
        req.delete.question_ids req.delete.option_ids
        (Edit.generate_final_response
          (Edit.fetch_ids_query db req.exam_id.exam_id))).section_id_to_delete :=
      hsOfList_mem_of_mem hs
    have hadd := filter_deletions_adds hmap hset
    exact ⟨hadd.2, delete_query_emits_option_delete hadd.2⟩
  · intro hrow hs
    have hmap : ((s, 0, 0) : Int × Int × Int) ∈
        Edit.generate_final_response (Edit.fetch_ids_query db req.exam_id.exam_id) :=
      generate_final_response_mem hrow
    have hset : s ∈ (Models.DeletionData.new req.delete.section_ids
        req.delete.question_ids req.delete.option_ids
        (Edit.generate_final_response
          (Edit.fetch_ids_query db req.exam_id.exam_id))).section_id_to_delete :=
      hsOfList_mem_of_mem hs
    have hadd := filter_deletions_adds hmap hset
    exact ⟨hadd.1, delete_query_emits_question_delete hadd.1,
      delete_query_emits_option_delete hadd.2⟩

/-- Witness for C10: a requested section (id 10) with a question (id 100)
without options, and, in a second database, with no questions at all. -/
theorem sentinel_zero_reaches_delete_statements_witness :
    (∃ ids, Edit.Stmt.deleteOptions ids ∈
      (Edit.delete
        ⟨[⟨1⟩], [⟨5, 1, "t", none, 10, 50⟩], [⟨10, 5, "A"⟩],
         [⟨100, 10, "q", none, 1⟩], []⟩
        ⟨⟨1⟩, ⟨"t", "d", 10, 50⟩, [], [], [], ⟨[10], [], []⟩⟩).1 ∧ (0 : Int) ∈ ids) ∧
    (∃ ids, Edit.Stmt.deleteQuestions ids ∈
      (Edit.delete
        ⟨[⟨1⟩], [⟨5, 1, "t", none, 10, 50⟩], [⟨10, 5, "A"⟩], [], []⟩
        ⟨⟨1⟩, ⟨"t", "d", 10, 50⟩, [], [], [], ⟨[10], [], []⟩⟩).1 ∧ (0 : Int) ∈ ids) := by
  constructor
  · exact ((sentinel_zero_reaches_delete_statements
      ⟨[⟨1⟩], [⟨5, 1, "t", none, 10, 50⟩], [⟨10, 5, "A"⟩],
       [⟨100, 10, "q", none, 1⟩], []⟩
      ⟨⟨1⟩, ⟨"t", "d", 10, 50⟩, [], [], [], ⟨[10], [], []⟩⟩ 10 100).1
      (by decide) (by decide)).2
  · exact (((sentinel_zero_reaches_delete_statements
      ⟨[⟨1⟩], [⟨5, 1, "t", none, 10, 50⟩], [⟨10, 5, "A"⟩], [], []⟩
      ⟨⟨1⟩, ⟨"t", "d", 10, 50⟩, [], [], [], ⟨[10], [], []⟩⟩ 10 0).2
      (by decide) (by decide)).2).1

/-! ## Lemmas on the snapshot join and the delete executor -/

/-- An ljoin over an empty match list is exactly the null-extended row. -/
theorem ljoin_nil {α β : Type} (ifEmpty : β) (f : α → List β) :
    Edit.ljoin ([] : List α) ifEmpty f = [ifEmpty] := rfl

/-- A row produced from a matching element belongs to the ljoin. -/
theorem ljoin_mem_of_mem {α β : Type} {ms : List α} {m : α} {f : α → List β}
    {b : β} (ifEmpty : β) (hm : m ∈ ms) (hb : b ∈ f m) :
    b ∈ Edit.ljoin ms ifEmpty f := by
  cases ms with
  | nil => cases hm
  | cons x xs =>
    show b ∈ (x :: xs).flatMap f
    exact List.mem_flatMap.mpr ⟨m, hm, hb⟩

/-- Every question below a section of the requested exam shows up in the id
snapshot, paired with its section id (and with some option column, NULL when
the question has no options). -/
theorem fetch_ids_mem_of_question (db : Edit.Db) {exam_id : Int}
    {e : Schema.ExamModel} {d : Schema.ExamDescriptionModel}
    {srow : Schema.SectionsModel} {qrow : Schema.QuestionsModel}
    (he : e ∈ db.exam) (heid : e.id = exam_id)
    (hd : d ∈ db.details) (hdid : d.exam_id = exam_id)
    (hs : srow ∈ db.sections) (hsd : srow.details_id = d.id)
    (hq : qrow ∈ db.questions) (hqs : qrow.section_id = srow.id) :
    ∃ oo, (some srow.id, some qrow.id, oo) ∈ Edit.fetch_ids_query db exam_id := by
  have hef : e ∈ db.exam.filter (fun x => decide (x.id = exam_id)) :=
    List.mem_filter.mpr ⟨he, by simp [heid]⟩
  have hdf : d ∈ db.details.filter (fun x => decide (x.exam_id = e.id)) :=
    List.mem_filter.mpr ⟨hd, by simp [hdid, heid]⟩
  have hsf : srow ∈ db.sections.filter (fun x => decide (x.details_id = d.id)) :=
    List.mem_filter.mpr ⟨hs, by simp [hsd]⟩
  have hqf : qrow ∈ db.questions.filter (fun x => decide (x.section_id = srow.id)) :=
    List.mem_filter.mpr ⟨hq, by simp [hqs]⟩
  cases hopt : db.options.filter (fun o => decide (o.question_id = qrow.id)) with
  | nil =>
    refine ⟨none, List.mem_flatMap.mpr ⟨e, hef, ?_⟩⟩
    refine ljoin_mem_of_mem _ hdf ?_
    refine ljoin_mem_of_mem _ hsf ?_
    refine ljoin_mem_of_mem _ hqf ?_
    rw [hopt, ljoin_nil]
    simp
  | cons o os =>
    refine ⟨some o.id, List.mem_flatMap.mpr ⟨e, hef, ?_⟩⟩
    refine ljoin_mem_of_mem _ hdf ?_
    refine ljoin_mem_of_mem _ hsf ?_
    refine ljoin_mem_of_mem _ hqf ?_
    have hmo : o ∈ db.options.filter (fun x => decide (x.question_id = qrow.id)) := by
      rw [hopt]
      exact List.mem_cons_self o os
    refine ljoin_mem_of_mem _ hmo ?_
    simp

/-- Every option below a question below a section of the requested exam
shows up in the id snapshot as a fully populated tuple. -/
theorem fetch_ids_mem_of_option (db : Edit.Db) {exam_id : Int}
    {e : Schema.ExamModel} {d : Schema.ExamDescriptionModel}
    {srow : Schema.SectionsModel} {qrow : Schema.QuestionsModel}
    {orow : Schema.OptionsModel}
    (he : e ∈ db.exam) (heid : e.id = exam_id)
    (hd : d ∈ db.details) (hdid : d.exam_id = exam_id)
    (hs : srow ∈ db.sections) (hsd : srow.details_id = d.id)
    (hq : qrow ∈ db.questions) (hqs : qrow.section_id = srow.id)
    (ho : orow ∈ db.options) (hoq : orow.question_id = qrow.id) :
    (some srow.id, some qrow.id, some orow.id) ∈ Edit.fetch_ids_query db exam_id := by
  have hef : e ∈ db.exam.filter (fun x => decide (x.id = exam_id)) :=
    List.mem_filter.mpr ⟨he, by simp [heid]⟩
  have hdf : d ∈ db.details.filter (fun x => decide (x.exam_id = e.id)) :=
    List.mem_filter.mpr ⟨hd, by simp [hdid, heid]⟩
  have hsf : srow ∈ db.sections.filter (fun x => decide (x.details_id = d.id)) :=
    List.mem_filter.mpr ⟨hs, by simp [hsd]⟩
  have hqf : qrow ∈ db.questions.filter (fun x => decide (x.section_id = srow.id)) :=
    List.mem_filter.mpr ⟨hq, by simp [hqs]⟩
  have hof : orow ∈ db.options.filter (fun x => decide (x.question_id = qrow.id)) :=
    List.mem_filter.mpr ⟨ho, by simp [hoq]⟩
  refine List.mem_flatMap.mpr ⟨e, hef, ?_⟩
  refine ljoin_mem_of_mem _ hdf ?_
  refine ljoin_mem_of_mem _ hsf ?_
  refine ljoin_mem_of_mem _ hqf ?_
  refine ljoin_mem_of_mem _ hof ?_
  simp

/-- The section DELETE leaves the questions table untouched. -/
theorem execDeleteSections_questions (db : Edit.Db) (ids : List Int) :
    (Edit.execDeleteSections db ids).2.questions = db.questions := by
  unfold Edit.execDeleteSections
  split <;> rfl

/-- The section DELETE leaves the options table untouched. -/
theorem execDeleteSections_options (db : Edit.Db) (ids : List Int) :
    (Edit.execDeleteSections db ids).2.options = db.options := by
  unfold Edit.execDeleteSections
  split <;> rfl

/-- The question DELETE leaves the options table untouched. -/
theorem execDeleteQuestions_options (db : Edit.Db) (ids : List Int) :
    (Edit.execDeleteQuestions db ids).2.options = db.options := by
  unfold Edit.execDeleteQuestions
  split <;> rfl

/-- The option DELETE leaves the questions table untouched. -/
theorem execDeleteOptions_questions (db : Edit.Db) (ids : List Int) :
    (Edit.execDeleteOptions db ids).2.questions = db.questions := by
  unfold Edit.execDeleteOptions
  split <;> rfl

/-- Question rows surviving the question DELETE come from the table. -/
theorem execDeleteQuestions_sub {db : Edit.Db} {ids : List Int}
    {x : Schema.QuestionsModel}
    (h : x ∈ (Edit.execDeleteQuestions db ids).2.questions) : x ∈ db.questions := by
  unfold Edit.execDeleteQuestions at h
  by_cases hne : ids ≠ []
  · rw [if_pos hne] at h
    simp only [List.mem_filter] at h
    exact h.1
  · rw [if_neg hne] at h
    exact h

/-- No question row whose id is in the (executed) deletion set survives the
question DELETE. -/
theorem execDeleteQuestions_removes {db : Edit.Db} {ids : List Int}
    {x : Schema.QuestionsModel}
    (h : x ∈ (Edit.execDeleteQuestions db ids).2.questions) (hx : x.id ∈ ids) :
    False := by
  unfold Edit.execDeleteQuestions at h
  by_cases hne : ids ≠ []
  · rw [if_pos hne] at h
    simp only [List.mem_filter, decide_eq_true_eq] at h
    exact h.2 hx
  · rw [if_neg hne] at h
    push_neg at hne
    subst hne
    cases hx

/-- Option rows surviving the option DELETE come from the table. -/
theorem execDeleteOptions_sub {db : Edit.Db} {ids : List Int}
    {x : Schema.OptionsModel}
    (h : x ∈ (Edit.execDeleteOptions db ids).2.options) : x ∈ db.options := by
  unfold Edit.execDeleteOptions at h
  by_cases hne : ids ≠ []
  · rw [if_pos hne] at h
    simp only [List.mem_filter] at h
    exact h.1
  · rw [if_neg hne] at h
    exact h

/-- No option row whose id is in the (executed) deletion set survives the
option DELETE. -/
theorem execDeleteOptions_removes {db : Edit.Db} {ids : List Int}
    {x : Schema.OptionsModel}
    (h : x ∈ (Edit.execDeleteOptions db ids).2.options) (hx : x.id ∈ ids) :
    False := by
  unfold Edit.execDeleteOptions at h
  by_cases hne : ids ≠ []
  · rw [if_pos hne] at h
    simp only [List.mem_filter, decide_eq_true_eq] at h
    exact h.2 hx
  · rw [if_neg hne] at h
    push_neg at hne
    subst hne
    cases hx

/-- Final questions table of the deletion executor. -/
theorem delete_query_final_questions (db : Edit.Db) (dd : Models.DeletionData) :
    (Edit.delete_query db dd).2.questions =
      (Edit.execDeleteQuestions
        (Edit.execDeleteSections db dd.filter_deletions.section_id_to_delete).2
        dd.filter_deletions.question_id_to_delete).2.questions := by
  unfold Edit.delete_query
  rw [execDeleteOptions_questions]

/-- Final options table of the deletion executor. -/
theorem delete_query_final_options (db : Edit.Db) (dd : Models.DeletionData) :
    (Edit.delete_query db dd).2.options =
      (Edit.execDeleteOptions
        (Edit.execDeleteQuestions
          (Edit.execDeleteSections db dd.filter_deletions.section_id_to_delete).2
          dd.filter_deletions.question_id_to_delete).2
        dd.filter_deletions.option_id_to_delete).2.options := rfl

/-! ## Claim C3 -/

/-- C3 counterexample: deleting ONLY question 100 (its section not
requested) does not add its option 1000 to the option deletion set; after
the deletion the question is gone and option 1000 survives, orphaned,
still referencing question 100 — contradicting the claim that every option
belonging to a requested question is added to the deletion set. -/
theorem question_delete_orphans_options :
    (Edit.delete
      ⟨[⟨1⟩], [⟨5, 1, "t", none, 10, 50⟩], [⟨10, 5, "S"⟩],
       [⟨100, 10, "q", none, 1⟩], [⟨1000, 100, "o", none⟩]⟩
      ⟨⟨1⟩, ⟨"t", "d", 10, 50⟩, [], [], [], ⟨[], [100], []⟩⟩).2.questions = [] ∧
    (Edit.delete
      ⟨[⟨1⟩], [⟨5, 1, "t", none, 10, 50⟩], [⟨10, 5, "S"⟩],
       [⟨100, 10, "q", none, 1⟩], [⟨1000, 100, "o", none⟩]⟩
      ⟨⟨1⟩, ⟨"t", "d", 10, 50⟩, [], [], [], ⟨[], [100], []⟩⟩).2.options
      = [⟨1000, 100, "o", none⟩] := by
  exact ⟨rfl, rfl⟩

/-- C3 (amended): before the edit-flow deletion executes, the requested id
sets are expanded from the database snapshot so that every question AND
every option lying below a requested section is added to its respective
deletion set (options of merely-requested questions are NOT expanded);
consequently, deleting a section id of the exam without separately listing
its child question/option ids leaves zero orphaned questions and zero
orphaned options referencing that section. -/
theorem section_delete_propagates_no_orphans (db : Edit.Db)
    (req : Models.EditExam) (e : Schema.ExamModel)
    (d : Schema.ExamDescriptionModel) (srow : Schema.SectionsModel)
    (he : e ∈ db.exam) (heid : e.id = req.exam_id.exam_id)
    (hd : d ∈ db.details) (hdid : d.exam_id = req.exam_id.exam_id)
    (hs : srow ∈ db.sections) (hsd : srow.details_id = d.id)
    (hreq : srow.id ∈ req.delete.section_ids) :
    (∀ q ∈ (Edit.delete db req).2.questions, q.section_id ≠ srow.id) ∧
    (∀ o ∈ (Edit.delete db req).2.options, ∀ q ∈ db.questions,
      q.section_id = srow.id → o.question_id ≠ q.id) := by
  have hdel : Edit.delete db req = Edit.delete_query db
      (Models.DeletionData.new req.delete.section_ids req.delete.question_ids
        req.delete.option_ids
        (Edit.generate_final_response
          (Edit.fetch_ids_query db req.exam_id.exam_id))) := rfl
  set dd := Models.DeletionData.new req.delete.section_ids req.delete.question_ids
    req.delete.option_ids
    (Edit.generate_final_response (Edit.fetch_ids_query db req.exam_id.exam_id))
    with hdd
  have hset : srow.id ∈ dd.section_id_to_delete := hsOfList_mem_of_mem hreq
  constructor
  · intro q hq heq
    rw [hdel, delete_query_final_questions] at hq
    have hqdb : q ∈ db.questions := by
      have := execDeleteQuestions_sub hq
      rwa [execDeleteSections_questions] at this
    obtain ⟨oo, hrow⟩ :=
      fetch_ids_mem_of_question db he heid hd hdid hs hsd hqdb heq
    have hmap : ((srow.id, q.id, oo.getD 0) : Int × Int × Int) ∈
        dd.section_question_option_map := by
      have := generate_final_response_mem hrow
      simpa using this
    have hadd := filter_deletions_adds hmap hset
    exact execDeleteQuestions_removes hq hadd.1
  · intro o ho q hq heq hoq
    rw [hdel, delete_query_final_options] at ho
    have hodb : o ∈ db.options := by
      have hmem := execDeleteOptions_sub ho
      rwa [execDeleteQuestions_options, execDeleteSections_options] at hmem
    have hrow := fetch_ids_mem_of_option db he heid hd hdid hs hsd hq heq hodb hoq
    have hmap : ((srow.id, q.id, o.id) : Int × Int × Int) ∈
        dd.section_question_option_map := by
      have := generate_final_response_mem hrow
      simpa using this
    have hadd := filter_deletions_adds hmap hset
    exact execDeleteOptions_removes ho hadd.2

/-- Witness for C3 (amended): requesting only section 10 of exam 1 removes
its question 100 and option 1000 without those ids being listed. -/
theorem section_delete_propagates_no_orphans_witness :
    (∀ q ∈ (Edit.delete
      ⟨[⟨1⟩], [⟨5, 1, "t", none, 10, 50⟩], [⟨10, 5, "S"⟩],
       [⟨100, 10, "q", none, 1⟩], [⟨1000, 100, "o", none⟩]⟩
      ⟨⟨1⟩, ⟨"t", "d", 10, 50⟩, [], [], [], ⟨[10], [], []⟩⟩).2.questions,
      q.section_id ≠ (10 : Int)) ∧
    (∀ o ∈ (Edit.delete
      ⟨[⟨1⟩], [⟨5, 1, "t", none, 10, 50⟩], [⟨10, 5, "S"⟩],
       [⟨100, 10, "q", none, 1⟩], [⟨1000, 100, "o", none⟩]⟩
      ⟨⟨1⟩, ⟨"t", "d", 10, 50⟩, [], [], [], ⟨[10], [], []⟩⟩).2.options,
      ∀ q ∈ [(⟨100, 10, "q", none, 1⟩ : Schema.QuestionsModel)],
      q.section_id = (10 : Int) → o.question_id ≠ q.id) :=
  section_delete_propagates_no_orphans
    ⟨[⟨1⟩], [⟨5, 1, "t", none, 10, 50⟩], [⟨10, 5, "S"⟩],
     [⟨100, 10, "q", none, 1⟩], [⟨1000, 100, "o", none⟩]⟩
    ⟨⟨1⟩, ⟨"t", "d", 10, 50⟩, [], [], [], ⟨[10], [], []⟩⟩
    ⟨1⟩ ⟨5, 1, "t", none, 10, 50⟩ ⟨10, 5, "S"⟩
    (by decide) (by decide) (by decide) (by decide) (by decide) (by decide)
    (by decide)

/-! ## Claim C6 -/

/-- C6: reading an exam fails with the RowNotFound-backed error when the
exam row is absent; it fails with the RowNotFound-backed description error
(instead of returning an empty description) when the exam exists but no
description row references it; and an exam with a description but no
sections is NOT an error: the read succeeds with an empty sections list. -/
theorem read_exam_data_not_found_semantics (db : Read.ReadDb) (exam_id : Int) :
    (db.exam.filter (fun x => decide (x.id = exam_id)) = [] →
      Read.read_exam_data db exam_id =
        .error (.notFound "Failed to fetch exam id")) ∧
    (∀ e es, db.exam.filter (fun x => decide (x.id = exam_id)) = e :: es →
      db.details.filter (fun x => decide (x.exam_id = exam_id)) = [] →
      Read.read_exam_data db exam_id =
        .error (.notFound "Failed to fetch exam description")) ∧
    (∀ e es d ds, db.exam.filter (fun x => decide (x.id = exam_id)) = e :: es →
      db.details.filter (fun x => decide (x.exam_id = exam_id)) = d :: ds →
      (∀ srow ∈ db.sections, ∀ drow ∈ db.details,
        drow.exam_id = exam_id → srow.details_id ≠ drow.id) →
      Read.read_exam_data db exam_id =
        .ok ⟨⟨e.id⟩, Read.descriptionFrom d, []⟩) := by
  refine ⟨fun h1 => ?_, fun e es h1 h2 => ?_, fun e es d ds h1 h2 h3 => ?_⟩
  · unfold Read.read_exam_data Read.fetch_exam_id
    rw [h1]
    rfl
  · unfold Read.read_exam_data Read.fetch_exam_id Read.fetch_exam_description
    rw [h1, h2]
    rfl
  · have hjoin : Read.sectionJoinRaw db exam_id = [] := by
      rw [List.eq_nil_iff_forall_not_mem]
      intro x hx
      unfold Read.sectionJoinRaw at hx
      obtain ⟨e', he', hx⟩ := List.mem_flatMap.mp hx
      obtain ⟨d', hd', hx⟩ := List.mem_flatMap.mp hx
      obtain ⟨s', hs', _⟩ := List.mem_flatMap.mp hx
      have he'm := List.mem_filter.mp he'
      have hd'm := List.mem_filter.mp hd'
      have hs'm := List.mem_filter.mp hs'
      refine h3 s' hs'm.1 d' hd'm.1 ?_ ?_
      · have h1 : d'.exam_id = e'.id := by
          have := hd'm.2
          simpa using this
        have h2 : e'.id = exam_id := by
          have := he'm.2
          simpa using this
        rw [h1, h2]
      · have := hs'm.2
        simpa using this
    unfold Read.read_exam_data Read.fetch_exam_id Read.fetch_exam_description
      Read.fetch_sections_and_questions
    rw [h1, h2, hjoin]
    rfl

/-- Witness for C6: the three branches at concrete databases — no exam row;
exam 1 without a description; exam 1 with description 5 and no sections. -/
theorem read_exam_data_not_found_semantics_witness :
    Read.read_exam_data ⟨[], [], [], [], []⟩ 1 =
      .error (.notFound "Failed to fetch exam id") ∧
    Read.read_exam_data ⟨[⟨1⟩], [], [], [], []⟩ 1 =
      .error (.notFound "Failed to fetch exam description") ∧
    Read.read_exam_data ⟨[⟨1⟩], [⟨5, 1, "t", none, 10, 50⟩], [], [], []⟩ 1 =
      .ok ⟨⟨1⟩, ⟨5, 1, "t", "", 10, 50⟩, []⟩ := by
  refine ⟨?_, ?_, ?_⟩
  · exact (read_exam_data_not_found_semantics ⟨[], [], [], [], []⟩ 1).1 rfl
  · exact (read_exam_data_not_found_semantics ⟨[⟨1⟩], [], [], [], []⟩ 1).2.1
      ⟨1⟩ [] (by decide) rfl
  · exact (read_exam_data_not_found_semantics
      ⟨[⟨1⟩], [⟨5, 1, "t", none, 10, 50⟩], [], [], []⟩ 1).2.2
      ⟨1⟩ [] ⟨5, 1, "t", none, 10, 50⟩ [] (by decide) (by decide)
      (by intro srow hsrow; cases hsrow)

/-! ## Lemmas on the bulk insert -/

/-- The lengths of two flatMap-of-map flattenings over the same nesting
agree (the mapped functions are irrelevant to the length). -/
theorem flatMap_map_length {α β : Type} {γ₁ γ₂ : Type} (l : List α)
    (g : α → List β) (f₁ : β → γ₁) (f₂ : β → γ₂) :
    (l.flatMap (fun a => (g a).map f₁)).length =
      (l.flatMap (fun a => (g a).map f₂)).length := by
  induction l with
  | nil => rfl
  | cons a t ih =>
    simp only [List.flatMap_cons, List.length_append, List.length_map, ih]

/-- Doubly nested variant of `flatMap_map_length`. -/
theorem flatMap2_map_length {α β δ : Type} {γ₁ γ₂ : Type} (l : List α)
    (g : α → List β) (g2 : β → List δ) (f₁ : δ → γ₁) (f₂ : δ → γ₂) :
    (l.flatMap (fun a => (g a).flatMap (fun b => (g2 b).map f₁))).length =
      (l.flatMap (fun a => (g a).flatMap (fun b => (g2 b).map f₂))).length := by
  induction l with
  | nil => rfl
  | cons a t ih =>
    simp only [List.flatMap_cons, List.length_append, ih]
    rw [flatMap_map_length (g a) g2 f₁ f₂]

/-- A successful insert-or-ignore bulk statement keeps every key already in
the table, and afterwards the table holds the key of every submitted
row. -/
theorem bulkGo_ok_mem {ρ : Type} (key fk : ρ → Int) (valid : List Int)
    (err : String) {table rows table' : List ρ}
    (h : Insert.bulkGo key fk valid err table rows = .ok table') :
    (∀ k, k ∈ table.map key → k ∈ table'.map key) ∧
    (∀ r ∈ rows, key r ∈ table'.map key) := by
  induction rows generalizing table with
  | nil =>
    have htab : table = table' := by
      unfold Insert.bulkGo at h
      exact Except.ok.inj h
    subst htab
    exact ⟨fun k hk => hk, fun r hr => absurd hr (List.not_mem_nil r)⟩
  | cons r rest ih =>
    unfold Insert.bulkGo at h
    by_cases hkey : key r ∈ table.map key
    · rw [if_pos hkey] at h
      obtain ⟨h1, h2⟩ := ih h
      refine ⟨h1, fun x hx => ?_⟩
      rcases List.mem_cons.mp hx with rfl | hmem
      · exact h1 _ hkey
      · exact h2 _ hmem
    · rw [if_neg hkey] at h
      by_cases hfk : fk r ∈ valid
      · rw [if_pos hfk] at h
        obtain ⟨h1, h2⟩ := ih h
        refine ⟨fun k hk => h1 k ?_, fun x hx => ?_⟩
        · rw [List.map_append]
          exact List.mem_append_left _ hk
        · rcases List.mem_cons.mp hx with rfl | hmem
          · refine h1 _ ?_
            rw [List.map_append]
            exact List.mem_append_right _ (by simp)
          · exact h2 _ hmem
      · rw [if_neg hfk] at h
        exact Except.noConfusion h

/-- Specification of a successful exam-row insert: the id is appended to
the exams table and nothing else changes. -/
theorem insert_exam_id_spec {req : Insert.ExamRequest} {db db' : Insert.InsertDb}
    {i : Int} (h : Insert.insert_exam_id req db = .ok (db', i)) :
    db' = { db with exams := db.exams ++ [req.exam_id.base.id] } := by
  unfold Insert.insert_exam_id at h
  by_cases hmem : req.exam_id.base.id ∈ db.exams
  · rw [if_pos hmem] at h
    exact Except.noConfusion h
  · rw [if_neg hmem] at h
    have hp := Except.ok.inj h
    injection hp with h1 h2
    exact h1.symm

/-- Specification of a successful details insert: the description row is
appended (with the request's exam id as foreign key) and nothing else
changes. -/
theorem insert_details_spec {req : Insert.ExamRequest} {db db' : Insert.InsertDb}
    {i : Int} (h : Insert.insert_details req db = .ok (db', i)) :
    db' = { db with exam_descriptions := db.exam_descriptions ++
      [{ req.description.base with exam_id := req.exam_id.base.id }] } := by
  unfold Insert.insert_details at h
  by_cases h1 : req.description.base.id ∈ db.exam_descriptions.map (fun d => d.id)
  · rw [if_pos h1] at h
    exact Except.noConfusion h
  · rw [if_neg h1] at h
    by_cases h2 : req.exam_id.base.id ∉ db.exams
    · rw [if_pos h2] at h
      exact Except.noConfusion h
    · rw [if_neg h2] at h
      have hp := Except.ok.inj h
      injection hp with h1 h2
      exact h1.symm

/-- Specification of a successful sections bulk insert: the other tables
are untouched, existing section ids survive, and every submitted section id
is in the table afterwards. -/
theorem insert_sections_spec {db db' : Insert.InsertDb} {ids dids : List Int}
    {titles : List String}
    (h : Insert.insert_sections db ids dids titles = .ok db')
    (hlen : ids.length ≤ (dids.zip titles).length) :
    db'.exams = db.exams ∧ db'.exam_descriptions = db.exam_descriptions ∧
    db'.questions = db.questions ∧ db'.options = db.options ∧
    (∀ k, k ∈ db.sections.map (fun r => r.id) → k ∈ db'.sections.map (fun r => r.id)) ∧
    (∀ x ∈ ids, x ∈ db'.sections.map (fun r => r.id)) := by
  simp only [Insert.insert_sections] at h
  cases hbg : Insert.bulkGo (fun r => r.id) (fun r => r.details_id)
      (db.exam_descriptions.map (fun d => d.id)) "Failed to insert sections"
      db.sections
      ((ids.zip (dids.zip titles)).map
        (fun t => Schema.SectionsModel.mk t.1 t.2.1 t.2.2)) with
  | error e =>
    rw [hbg] at h
    exact Except.noConfusion h
  | ok table =>
    rw [hbg] at h
    have hdb : db' = { db with sections := table } := (Except.ok.inj h).symm
    subst hdb
    obtain ⟨h1, h2⟩ := bulkGo_ok_mem _ _ _ _ hbg
    have hfst : ((ids.zip (dids.zip titles)).map
        (fun t => Schema.SectionsModel.mk t.1 t.2.1 t.2.2)).map
        (fun r => r.id) = ids := by
      rw [List.map_map]
      exact List.map_fst_zip ids (dids.zip titles) hlen
    refine ⟨rfl, rfl, rfl, rfl, h1, fun x hx => ?_⟩
    rw [← hfst] at hx
    obtain ⟨row, hrow, hrid⟩ := List.mem_map.mp hx
    rw [← hrid]
    exact h2 row hrow

/-- Specification of a successful questions bulk insert. -/
theorem insert_questions_spec {db db' : Insert.InsertDb}
    {ids sids marks : List Int} {texts descs : List String}
    (h : Insert.insert_questions db ids sids texts descs marks = .ok db')
    (hlen : ids.length ≤ (sids.zip (texts.zip (descs.zip marks))).length) :
    db'.exams = db.exams ∧ db'.exam_descriptions = db.exam_descriptions ∧
    db'.sections = db.sections ∧ db'.options = db.options ∧
    (∀ k, k ∈ db.questions.map (fun r => r.id) → k ∈ db'.questions.map (fun r => r.id)) ∧
    (∀ x ∈ ids, x ∈ db'.questions.map (fun r => r.id)) := by
  simp only [Insert.insert_questions] at h
  cases hbg : Insert.bulkGo (fun r => r.id) (fun r => r.section_id)
      (db.sections.map (fun s => s.id)) "Failed to insert questions"
      db.questions
      ((ids.zip (sids.zip (texts.zip (descs.zip marks)))).map
        (fun t => Schema.QuestionsModel.mk t.1 t.2.1 t.2.2.1
          (some t.2.2.2.1) t.2.2.2.2)) with
  | error e =>
    rw [hbg] at h
    exact Except.noConfusion h
  | ok table =>
    rw [hbg] at h
    have hdb : db' = { db with questions := table } := (Except.ok.inj h).symm
    subst hdb
    obtain ⟨h1, h2⟩ := bulkGo_ok_mem _ _ _ _ hbg
    have hfst : ((ids.zip (sids.zip (texts.zip (descs.zip marks)))).map
        (fun t => Schema.QuestionsModel.mk t.1 t.2.1 t.2.2.1
          (some t.2.2.2.1) t.2.2.2.2)).map (fun r => r.id) = ids := by
      rw [List.map_map]
      exact List.map_fst_zip ids (sids.zip (texts.zip (descs.zip marks))) hlen
    refine ⟨rfl, rfl, rfl, rfl, h1, fun x hx => ?_⟩
    rw [← hfst] at hx
    obtain ⟨row, hrow, hrid⟩ := List.mem_map.mp hx
    rw [← hrid]
    exact h2 row hrow

/-- Specification of a successful options bulk insert. -/
theorem insert_options_spec {db db' : Insert.InsertDb}
    {ids qids : List Int} {texts : List String} {flags : List Bool}
    (h : Insert.insert_options db ids qids texts flags = .ok db')
    (hlen : ids.length ≤ (qids.zip (texts.zip flags)).length) :
    db'.exams = db.exams ∧ db'.exam_descriptions = db.exam_descriptions ∧
    db'.sections = db.sections ∧ db'.questions = db.questions ∧
    (∀ k, k ∈ db.options.map (fun r => r.id) → k ∈ db'.options.map (fun r => r.id)) ∧
    (∀ x ∈ ids, x ∈ db'.options.map (fun r => r.id)) := by
  simp only [Insert.insert_options] at h
  cases hbg : Insert.bulkGo (fun r => r.id) (fun r => r.question_id)
      (db.questions.map (fun q => q.id)) "Failed to insert options"
      db.options
      ((ids.zip (qids.zip (texts.zip flags))).map
        (fun t => Schema.OptionsModel.mk t.1 t.2.1 t.2.2.1 (some t.2.2.2))) with
  | error e =>
    rw [hbg] at h
    exact Except.noConfusion h
  | ok table =>
    rw [hbg] at h
    have hdb : db' = { db with options := table } := (Except.ok.inj h).symm
    subst hdb
    obtain ⟨h1, h2⟩ := bulkGo_ok_mem _ _ _ _ hbg
    have hfst : ((ids.zip (qids.zip (texts.zip flags))).map
        (fun t => Schema.OptionsModel.mk t.1 t.2.1 t.2.2.1 (some t.2.2.2))).map
        (fun r => r.id) = ids := by
      rw [List.map_map]
      exact List.map_fst_zip ids (qids.zip (texts.zip flags)) hlen
    refine ⟨rfl, rfl, rfl, rfl, h1, fun x hx => ?_⟩
    rw [← hfst] at hx
    obtain ⟨row, hrow, hrid⟩ := List.mem_map.mp hx
    rw [← hrid]
    exact h2 row hrow

/-! ## Claim C1 -/

/-- C1 counterexample: two successful full-exam inserts with different root
exam ids (1 and 2) both return the same value `Ok(())` — `insert_exam` has
type `Result<()>`, so the root Exam id is not returned to the caller,
contradicting that part of the claim. -/
theorem insert_exam_returns_unit_not_id :
    (Insert.insert_exam ⟨⟨⟨1⟩⟩, ⟨⟨5, 1, "t", none, 10, 50⟩⟩, []⟩
      ⟨[], [], [], [], []⟩).result = .ok () ∧
    (Insert.insert_exam ⟨⟨⟨2⟩⟩, ⟨⟨6, 2, "t", none, 10, 50⟩⟩, []⟩
      ⟨[], [], [], [], []⟩).result = .ok () ∧
    (1 : Int) ≠ 2 :=
  ⟨rfl, rfl, by decide⟩

/-- C1 (amended): `insert_exam` runs in one transaction issuing inserts in
the order Exam, Description, bulk Sections, bulk Questions, bulk Options;
on success the transaction commits — the committed database contains the
exam id, the description id, and every submitted section/question/option id
— and `Ok(())` is returned (unit, not the root Exam id, which is computed
and discarded); on any failure the statement trace is a prefix of that
order and the visible database is exactly the initial one (rollback: no
partial exam is ever visible). -/
theorem insert_exam_transaction_semantics (exam : Insert.ExamRequest)
    (db : Insert.InsertDb) :
    ((Insert.insert_exam exam db).result = .ok () →
      (Insert.insert_exam exam db).trace =
        [.exams, .details, .sections, .questions, .options] ∧
      exam.exam_id.base.id ∈ (Insert.insert_exam exam db).db.exams ∧
      exam.description.base.id ∈
        (Insert.insert_exam exam db).db.exam_descriptions.map (fun d => d.id) ∧
      (∀ s ∈ exam.sections, s.base.id ∈
        (Insert.insert_exam exam db).db.sections.map (fun r => r.id)) ∧
      (∀ s ∈ exam.sections, ∀ q ∈ s.questions, q.base.id ∈
        (Insert.insert_exam exam db).db.questions.map (fun r => r.id)) ∧
      (∀ s ∈ exam.sections, ∀ q ∈ s.questions, ∀ o ∈ q.options, o.base.id ∈
        (Insert.insert_exam exam db).db.options.map (fun r => r.id))) ∧
    (∀ e, (Insert.insert_exam exam db).result = .error e →
      (Insert.insert_exam exam db).db = db ∧
      ∃ rest, (Insert.insert_exam exam db).trace ++ rest =
        [.exams, .details, .sections, .questions, .options]) := by
  simp only [Insert.insert_exam]
  split
  · -- insert_exam_id failed
    exact ⟨fun hok => Except.noConfusion hok,
      fun e he => ⟨rfl, ⟨[.details, .sections, .questions, .options], rfl⟩⟩⟩
  · next t1 x1 heq1 =>
    split
    · -- insert_details failed
      exact ⟨fun hok => Except.noConfusion hok,
        fun e he => ⟨rfl, ⟨[.sections, .questions, .options], rfl⟩⟩⟩
    · next t2 x2 heq2 =>
      split
      · -- insert_sections failed
        exact ⟨fun hok => Except.noConfusion hok,
          fun e he => ⟨rfl, ⟨[.questions, .options], rfl⟩⟩⟩
      · next t3 heq3 =>
        split
        · -- insert_questions failed
          exact ⟨fun hok => Except.noConfusion hok,
            fun e he => ⟨rfl, ⟨[.options], rfl⟩⟩⟩
        · next t4 heq4 =>
          split
          · -- insert_options failed
            exact ⟨fun hok => Except.noConfusion hok,
              fun e he => ⟨rfl, ⟨[], rfl⟩⟩⟩
          · next t5 heq5 =>
            -- every step succeeded: the transaction commits t5
            have hlen3 : (exam.sections.map (fun s => s.base.id)).length ≤
                ((List.replicate (exam.sections.map (fun s => s.base.id)).length
                  exam.description.base.id).zip
                  (exam.sections.map (fun s => s.base.title))).length := by
              simp [List.length_zip]
            have e1 := flatMap_map_length exam.sections (fun s => s.questions)
              (fun q => q.base.section_id) (fun q => q.base.id)
            have e2 := flatMap_map_length exam.sections (fun s => s.questions)
              (fun q => q.base.text) (fun q => q.base.id)
            have e3 := flatMap_map_length exam.sections (fun s => s.questions)
              (fun q => q.base.description.getD "") (fun q => q.base.id)
            have e4 := flatMap_map_length exam.sections (fun s => s.questions)
              (fun q => q.base.marks) (fun q => q.base.id)
            have hlen4 : (exam.sections.flatMap
                (fun s => s.questions.map (fun q => q.base.id))).length ≤
                ((exam.sections.flatMap
                  (fun s => s.questions.map (fun q => q.base.section_id))).zip
                  ((exam.sections.flatMap
                    (fun s => s.questions.map (fun q => q.base.text))).zip
                    ((exam.sections.flatMap
                      (fun s => s.questions.map (fun q => q.base.description.getD ""))).zip
                      (exam.sections.flatMap
                        (fun s => s.questions.map (fun q => q.base.marks)))))).length := by
              rw [List.length_zip, List.length_zip, List.length_zip, e1, e2, e3, e4]
              simp
            have f1 := flatMap2_map_length exam.sections (fun s => s.questions)
              (fun q => q.options) (fun o => o.base.question_id) (fun o => o.base.id)
            have f2 := flatMap2_map_length exam.sections (fun s => s.questions)
              (fun q => q.options) (fun o => o.base.text) (fun o => o.base.id)
            have f3 := flatMap2_map_length exam.sections (fun s => s.questions)
              (fun q => q.options) (fun o => o.base.is_correct.getD false)
              (fun o => o.base.id)
            have hlen5 : (exam.sections.flatMap (fun s => s.questions.flatMap
                (fun q => q.options.map (fun o => o.base.id)))).length ≤
                ((exam.sections.flatMap (fun s => s.questions.flatMap
                  (fun q => q.options.map (fun o => o.base.question_id)))).zip
                  ((exam.sections.flatMap (fun s => s.questions.flatMap
                    (fun q => q.options.map (fun o => o.base.text)))).zip
                    (exam.sections.flatMap (fun s => s.questions.flatMap
                      (fun q => q.options.map
                        (fun o => o.base.is_correct.getD false)))))).length := by
              rw [List.length_zip, List.length_zip, f1, f2, f3]
              simp
            have h1spec := insert_exam_id_spec heq1
            have h2spec := insert_details_spec heq2
            obtain ⟨s_ex, s_desc, s_q, s_o, s_keep, s_mem⟩ :=
              insert_sections_spec heq3 hlen3
            obtain ⟨q_ex, q_desc, q_sec, q_o, q_keep, q_mem⟩ :=
              insert_questions_spec heq4 hlen4
            obtain ⟨o_ex, o_desc, o_sec, o_q, o_keep, o_mem⟩ :=
              insert_options_spec heq5 hlen5
            subst h1spec
            subst h2spec
            refine ⟨fun _ => ⟨rfl, ?_, ?_, ?_, ?_, ?_⟩,
              fun e he => Except.noConfusion he⟩
            · rw [show (⟨[Insert.InsertStmt.exams, .details, .sections, .questions,
                  .options], t5, Except.ok ()⟩ : Insert.InsertOutcome).db = t5 from rfl,
                o_ex, q_ex, s_ex]
              simp
            · rw [show (⟨[Insert.InsertStmt.exams, .details, .sections, .questions,
                  .options], t5, Except.ok ()⟩ : Insert.InsertOutcome).db = t5 from rfl,
                o_desc, q_desc, s_desc]
              simp
            · intro s hs
              have hmem := s_mem _ (List.mem_map_of_mem (fun s => s.base.id) hs)
              rw [show (⟨[Insert.InsertStmt.exams, .details, .sections, .questions,
                  .options], t5, Except.ok ()⟩ : Insert.InsertOutcome).db = t5 from rfl,
                o_sec, q_sec]
              exact hmem
            · intro s hs q hq
              have hid : q.base.id ∈ exam.sections.flatMap
                  (fun s => s.questions.map (fun q => q.base.id)) :=
                List.mem_flatMap.mpr ⟨s, hs, List.mem_map_of_mem _ hq⟩
              have hmem := q_mem _ hid
              rw [show (⟨[Insert.InsertStmt.exams, .details, .sections, .questions,
                  .options], t5, Except.ok ()⟩ : Insert.InsertOutcome).db = t5 from rfl,
                o_q]
              exact hmem
            · intro s hs q hq o ho
              have hid : o.base.id ∈ exam.sections.flatMap (fun s => s.questions.flatMap
                  (fun q => q.options.map (fun o => o.base.id))) :=
                List.mem_flatMap.mpr ⟨s, hs,
                  List.mem_flatMap.mpr ⟨q, hq, List.mem_map_of_mem _ ho⟩⟩
              exact o_mem _ hid

/-- Witness for C1 (amended): a successful insert of a one-section,
one-question, one-option exam into an empty database, and a failing insert
(duplicate exam id) that leaves the database unchanged. -/
theorem insert_exam_transaction_semantics_witness :
    ((Insert.insert_exam
      ⟨⟨⟨1⟩⟩, ⟨⟨5, 1, "t", none, 10, 50⟩⟩,
       [⟨⟨10, 5, "S"⟩, [⟨⟨100, 10, "q", none, 1⟩, [⟨⟨1000, 100, "o", some true⟩⟩]⟩]⟩]⟩
      ⟨[], [], [], [], []⟩).trace =
        [.exams, .details, .sections, .questions, .options] ∧
      (1 : Int) ∈ (Insert.insert_exam
      ⟨⟨⟨1⟩⟩, ⟨⟨5, 1, "t", none, 10, 50⟩⟩,
       [⟨⟨10, 5, "S"⟩, [⟨⟨100, 10, "q", none, 1⟩, [⟨⟨1000, 100, "o", some true⟩⟩]⟩]⟩]⟩
      ⟨[], [], [], [], []⟩).db.exams) ∧
    ((Insert.insert_exam
      ⟨⟨⟨1⟩⟩, ⟨⟨5, 1, "t", none, 10, 50⟩⟩,
       [⟨⟨10, 5, "S"⟩, [⟨⟨100, 10, "q", none, 1⟩, [⟨⟨1000, 100, "o", some true⟩⟩]⟩]⟩]⟩
      ⟨[1], [], [], [], []⟩).db = ⟨[1], [], [], [], []⟩ ∧
      ∃ rest, (Insert.insert_exam
      ⟨⟨⟨1⟩⟩, ⟨⟨5, 1, "t", none, 10, 50⟩⟩,
       [⟨⟨10, 5, "S"⟩, [⟨⟨100, 10, "q", none, 1⟩, [⟨⟨1000, 100, "o", some true⟩⟩]⟩]⟩]⟩
      ⟨[1], [], [], [], []⟩).trace ++ rest =
        [.exams, .details, .sections, .questions, .options]) := by
  constructor
  · have h := (insert_exam_transaction_semantics
      ⟨⟨⟨1⟩⟩, ⟨⟨5, 1, "t", none, 10, 50⟩⟩,
       [⟨⟨10, 5, "S"⟩, [⟨⟨100, 10, "q", none, 1⟩, [⟨⟨1000, 100, "o", some true⟩⟩]⟩]⟩]⟩
      ⟨[], [], [], [], []⟩).1 rfl
    exact ⟨h.1, h.2.1⟩
  · exact (insert_exam_transaction_semantics
      ⟨⟨⟨1⟩⟩, ⟨⟨5, 1, "t", none, 10, 50⟩⟩,
       [⟨⟨10, 5, "S"⟩, [⟨⟨100, 10, "q", none, 1⟩, [⟨⟨1000, 100, "o", some true⟩⟩]⟩]⟩]⟩
      ⟨[1], [], [], [], []⟩).2 "Failed to insert into exam" rfl

end Ilmiya
